import Mathlib

/-!
# EthGuardian AI — verification of the detection-and-traversal engine

Shallow embedding, in Lean 4, of the core of the `ethguardian-AI`
repository (`backend/app/aml_analytics.py`, `ml_models.py`, `crawler.py`,
`expansion.py`, `automation.py`) together with proofs settling the claims
about it.

Modelling conventions:
* Python/Cypher floats are modelled as `ℚ` (all constants appearing in the
  code are decimal literals, represented exactly).
* Unix timestamps (`t.time`, seconds) and alert timestamps (`created_at`,
  milliseconds) are `Int`.  `time.time()` is an explicit parameter: each
  detector run receives `nowSec` (used for lookback windows) and `nowMs`
  (used for alert ids); all `_create_alert` calls of one pipeline run
  observe the same clock value.
* The Neo4j graph is a record of lists: `Address` nodes, raw `Transaction`
  nodes (with their `EMITTED` source and `RECEIVED_BY` destination),
  aggregated `TRANSFER` edges (unique per ordered pair, per the MERGE in
  `core.ingest_address`), and `Alert` nodes with their `FOR` address.
* The alert id string `f"{alert_type}:{address}:{now}"` is represented by
  the structured triple `AlertId` (the format is injective in its three
  components, so this loses nothing).
* Alert `details` dicts are modelled as association lists of numeric
  entries; no claim depends on their contents.
-/

/-- A raw `Transaction` node: `(src)-[:EMITTED]->(t)-[:RECEIVED_BY]->(dst)`. -/
structure Txn where
  hash : String
  src : String
  dst : String
  value : ℚ
  time : Int
  deriving Repr, DecidableEq

/-- An aggregated `TRANSFER` edge (unique per ordered `(src, dst)` pair). -/
structure Transfer where
  src : String
  dst : String
  count : Nat
  value_sum : ℚ
  last_ts : Int
  deriving Repr, DecidableEq

/-- An `Address` node with the structural features written by GDS. -/
structure AddressNode where
  address : String
  first_seen : Option Int := none
  last_seen : Option Int := none
  pagerank : Option ℚ := none
  degree : Option ℚ := none
  inDegree : Option ℚ := none
  outDegree : Option ℚ := none
  triangles : Option ℚ := none
  risk_score : Option ℚ := none
  has_alert : Bool := false
  last_alert_ts : Option Int := none
  deriving Repr, DecidableEq

/-- The alert id `f"{alert_type}:{address}:{now}"`, as a structured triple. -/
structure AlertId where
  typ : String
  addr : String
  ms : Int
  deriving Repr, DecidableEq

/-- An `Alert` node together with its `FOR` address. -/
structure Alert where
  id : AlertId
  typ : String
  score : ℚ
  details : List (String × ℚ)
  created_at : Int
  forAddr : String
  deriving Repr, DecidableEq

/-- The graph-store state. -/
structure Graph where
  addrs : List AddressNode
  txns : List Txn
  transfers : List Transfer
  alerts : List Alert
  deriving Repr, DecidableEq

/-- `MATCH (a:Address {address: $address})` — first node with that address. -/
def Graph.findAddr (g : Graph) (a : String) : Option AddressNode :=
  g.addrs.find? (fun n => n.address == a)

/-- Update the one address node matched by `address` (no-op if absent). -/
def Graph.setAddr (g : Graph) (a : String) (f : AddressNode → AddressNode) : Graph :=
  { g with addrs := g.addrs.map (fun n => if n.address = a then f n else n) }

/-- `_create_alert` (aml_analytics.py:9-29): `MERGE (al:Alert {id: $id})`
with `ON CREATE SET al.created_at = $now` and an unconditional
`SET al.type, al.score, al.details`, then `SET a.last_alert_ts, a.has_alert`
on the (merged) address node. -/
def _create_alert (g : Graph) (nowMs : Int) (address alert_type : String)
    (score : ℚ) (details : List (String × ℚ)) : Graph :=
  let id : AlertId := ⟨alert_type, address, nowMs⟩
  let g :=
    if g.alerts.any (fun al => al.id == id) then
      { g with alerts := g.alerts.map (fun al : Alert =>
          if al.id = id then { al with typ := alert_type, score := score, details := details }
          else al) }
    else
      { g with alerts := g.alerts ++
          [⟨id, alert_type, score, details, nowMs, address⟩] }
  let g :=
    if (g.findAddr address).isSome then g
    else { g with addrs := g.addrs ++ [{ address := address }] }
  g.setAddr address (fun n => { n with last_alert_ts := some nowMs, has_alert := true })

/-- The Python loop `for r in rows: results.append(...); _create_alert(...)`,
as a fold over `(address, type, score, details)` creation requests. -/
def createAlerts (g : Graph) (nowMs : Int)
    (items : List (String × String × ℚ × List (String × ℚ))) : Graph :=
  items.foldl (fun g' it => _create_alert g' nowMs it.1 it.2.1 it.2.2.1 it.2.2.2) g

/-! ## Heuristic detectors (aml_analytics.py)

Each detector is a function `Graph → … → List (String × ℚ) × Graph`: the
returned list is the Python `results` list of `(address, score)` tuples,
the returned graph is the store after the detector's `_create_alert` calls.
A Cypher `MATCH (a:Address {address: $address})` yields no row when the
node is absent, in which case the detector returns `([], g)`. -/

/-- Deposits matched by `detect_structuring`: `(a)<-[:RECEIVED_BY]-(t)` with
`0 < t.value < 0.5` and `t.time >= now - 3 days`. -/
def structuringTxns (g : Graph) (nowSec : Int) (address : String) : List Txn :=
  g.txns.filter (fun t =>
    t.dst == address && decide (0 < t.value) && decide (t.value < 1/2) &&
    decide (nowSec - 3 * 24 * 3600 ≤ t.time))

/-- `detect_structuring` (aml_analytics.py:32-59). -/
def detect_structuring (g : Graph) (nowSec nowMs : Int) (address : String) :
    List (String × ℚ) × Graph :=
  match g.findAddr address with
  | none => ([], g)
  | some _ =>
    let ts := structuringTxns g nowSec address
    let cnt := ts.length
    let total : ℚ := (ts.map (fun t => t.value)).sum
    if 5 ≤ cnt then
      let score : ℚ := ((cnt : ℚ) / 5) * 20 + (if 1 < total then 10 else 0)
      ([(address, score)],
       createAlerts g nowMs [(address, "STRUCTURING", score, [("window_days", 3)])])
    else ([], g)

/-- The `(r1, r2)` rows of `detect_peel_chains`: `(a0)-[r1]->(a1)-[r2]->(a2)`
with `r2.value_sum <= r1.value_sum * 0.7` (`r1 ≠ r2` by Cypher relationship
uniqueness inside one `MATCH`; since the store holds one `TRANSFER` edge
per ordered pair, relationship identity is the `(src, dst)` key). -/
def peelPairs (g : Graph) (address : String) : List (Transfer × Transfer) :=
  (g.transfers.filter (fun r1 => r1.src == address)).flatMap (fun r1 =>
    (g.transfers.filter (fun r2 =>
        r2.src == r1.dst && !(r2.src == r1.src && r2.dst == r1.dst) &&
        decide (r2.value_sum ≤ r1.value_sum * (7/10)))).map (fun r2 => (r1, r2)))

/-- `WITH a0, count(*) AS depth` after the `OPTIONAL MATCH` of `r3`: each
`(r1, r2)` row is multiplied by its qualifying `r3`s (or kept once when
there is none; the separate clause puts no uniqueness constraint on `r3`). -/
def peelDepth (g : Graph) (address : String) : Nat :=
  ((peelPairs g address).map (fun p =>
    max 1 (g.transfers.filter (fun r3 =>
      r3.src == p.2.dst && decide (r3.value_sum ≤ p.2.value_sum * (7/10)))).length)).sum

/-- `detect_peel_chains` (aml_analytics.py:62-81). -/
def detect_peel_chains (g : Graph) (nowMs : Int) (address : String) :
    List (String × ℚ) × Graph :=
  match g.findAddr address with
  | none => ([], g)
  | some _ =>
    if peelPairs g address = [] then ([], g)
    else
      let depth := peelDepth g address
      let score : ℚ := (if 1 ≤ depth then 40 else 0) + (depth : ℚ) * 10
      ([(address, score)],
       createAlerts g nowMs [(address, "PEEL_CHAIN", score, [("ratio", 7/10)])])

/-- `count(DISTINCT src)` over `(src)-[:TRANSFER]->(a)`. -/
def fanin (g : Graph) (address : String) : Nat :=
  ((g.transfers.filter (fun r => r.dst == address)).map (fun r => r.src)).dedup.length

/-- `count(DISTINCT dst)` over `(a)-[:TRANSFER]->(dst)`. -/
def fanout (g : Graph) (address : String) : Nat :=
  ((g.transfers.filter (fun r => r.src == address)).map (fun r => r.dst)).dedup.length

/-- `find_mixer_activity` (aml_analytics.py:84-113). -/
def find_mixer_activity (g : Graph) (nowMs : Int) (address : String) :
    List (String × ℚ) × Graph :=
  match g.findAddr address with
  | none => ([], g)
  | some _ =>
    let fi := fanin g address
    let fo := fanout g address
    let score : ℚ := if 20 ≤ fi ∨ 20 ≤ fo then 60 else if 10 ≤ fi ∨ 10 ≤ fo then 40 else 0
    if 0 < score then
      ([(address, score)],
       createAlerts g nowMs
         [(address, "MIXER_PATTERN", score, [("fanin", fi), ("fanout", fo)])])
    else ([], g)

/-- The `bads` of `run_taint_analysis`: addresses holding an alert of type
`SANCTION`/`MIXER_PATTERN`/`PEEL_CHAIN` with score ≥ 50. -/
def taintBads (g : Graph) : List String :=
  ((g.alerts.filter (fun al =>
      (al.typ == "SANCTION" || al.typ == "MIXER_PATTERN" || al.typ == "PEEL_CHAIN") &&
      decide ((50 : ℚ) ≤ al.score))).map (fun al => al.forAddr)).dedup

/-- Undirected `TRANSFER` neighbours of a node. -/
def undirectedNbrs (g : Graph) (x : String) : List String :=
  (g.transfers.filter (fun r => r.src == x)).map (fun r => r.dst) ++
  (g.transfers.filter (fun r => r.dst == x)).map (fun r => r.src)

/-- One undirected BFS step from a set of nodes. -/
def stepSet (g : Graph) (s : List String) : List String :=
  (s.flatMap (undirectedNbrs g)).dedup

/-- Length of `shortestPath((a)-[:TRANSFER*..3]-(b))` for `b ≠ a` (for
distinct endpoints a shortest walk is a relationship-distinct path, so
plain BFS distance is the Cypher path length). -/
def hopDist3 (g : Graph) (a b : String) : Option Nat :=
  let s1 := stepSet g [a]
  if b ∈ s1 then some 1
  else
    let s2 := stepSet g s1
    if b ∈ s2 then some 2
    else
      let s3 := stepSet g s2
      if b ∈ s3 then some 3 else none

/-- The positive-score rows of `run_taint_analysis`: one per bad address
within 3 undirected hops, scored `50 - 10*(hops-1)`.  The `b = a` case is
excluded: Neo4j's `shortestPath` does not produce common-end-node paths. -/
def taintRows (g : Graph) (address : String) : List (String × ℚ) :=
  (taintBads g).filterMap (fun b =>
    if b == address then none
    else match hopDist3 g address b with
      | some d => some (address, (50 : ℚ) - 10 * ((d : ℚ) - 1))
      | none => none)

/-- `run_taint_analysis` (aml_analytics.py:116-138); rows with score `0`
(no path) are filtered by the Python `if score > 0`. -/
def run_taint_analysis (g : Graph) (nowMs : Int) (address : String) :
    List (String × ℚ) × Graph :=
  match g.findAddr address with
  | none => ([], g)
  | some _ =>
    let rows := taintRows g address
    (rows, createAlerts g nowMs (rows.map (fun r => (r.1, "TAINT", r.2, [("max_hops", 3)]))))

/-- Number of directed paths of exactly `n` further distinct `TRANSFER`
relationships from `cur` back to `target`, avoiding the already-used ones
(Cypher relationship uniqueness along a variable-length pattern; an edge is
identified by its `(src, dst)` key, unique in the store). -/
def countCyclePaths (g : Graph) (target cur : String) (used : List (String × String)) :
    Nat → Nat
  | 0 => if cur == target then 1 else 0
  | n + 1 =>
    ((g.transfers.filter (fun e => e.src == cur && !(used.contains (e.src, e.dst)))).map
      (fun e => countCyclePaths g target e.dst ((e.src, e.dst) :: used) n)).sum

/-- `count(p)` for `p = (a)-[:TRANSFER*2..4]->(a)`. -/
def cyclesCount (g : Graph) (address : String) : Nat :=
  countCyclePaths g address address [] 2 + countCyclePaths g address address [] 3 +
    countCyclePaths g address address [] 4

/-- `find_circular_txns` (aml_analytics.py:141-160). -/
def find_circular_txns (g : Graph) (nowMs : Int) (address : String) :
    List (String × ℚ) × Graph :=
  match g.findAddr address with
  | none => ([], g)
  | some _ =>
    let cycles := cyclesCount g address
    if cycles = 0 then ([], g)
    else
      let score : ℚ := if 3 ≤ cycles then 50 else if cycles = 2 then 35 else 20
      ([(address, score)],
       createAlerts g nowMs [(address, "CIRCULARITY", score, [("cycles", (cycles : ℚ))])])

/-- Outgoing transactions in the last 24h (`(a)-[:EMITTED]->(t)`). -/
def velocityTxns (g : Graph) (nowSec : Int) (address : String) : List Txn :=
  g.txns.filter (fun t => t.src == address && decide (nowSec - 24 * 3600 ≤ t.time))

/-- `detect_velocity_alert` (aml_analytics.py:163-213). -/
def detect_velocity_alert (g : Graph) (nowSec nowMs : Int) (address : String) :
    List (String × ℚ) × Graph :=
  match g.findAddr address with
  | none => ([], g)
  | some _ =>
    let ts := velocityTxns g nowSec address
    let cnt := ts.length
    if 10 ≤ cnt then
      let times := ts.map (fun t => t.time)
      let span : Int := times.max?.getD 0 - times.min?.getD 0
      let tph : ℚ := if 0 < span then (cnt : ℚ) / ((span : ℚ) / 3600) else (cnt : ℚ)
      if 10 ≤ tph then
        let score : ℚ := if 50 ≤ tph then 70 else if 30 ≤ tph then 55 else 40
        ([(address, score)],
         createAlerts g nowMs
           [(address, "VELOCITY_ALERT", score,
             [("tx_count", cnt), ("txs_per_hour", tph), ("window_hours", 24)])])
      else ([], g)
    else ([], g)

/-- Recent large outgoing transactions for `detect_dormant_reactivation`. -/
def dormantTxns (g : Graph) (nowSec : Int) (address : String) : List Txn :=
  g.txns.filter (fun t =>
    t.src == address && decide (nowSec - 30 * 24 * 3600 ≤ t.time) &&
    decide ((1 : ℚ) ≤ t.value))

/-- `detect_dormant_reactivation` (aml_analytics.py:216-264). -/
def detect_dormant_reactivation (g : Graph) (nowSec nowMs : Int) (address : String) :
    List (String × ℚ) × Graph :=
  match g.findAddr address with
  | none => ([], g)
  | some a =>
    match a.first_seen, a.last_seen with
    | some fs, some ls =>
      let lifetime := ls - fs
      if 180 * 24 * 3600 < lifetime then
        let rts := dormantTxns g nowSec address
        if 1 ≤ rts.length then
          let rv : ℚ := (rts.map (fun t => t.value)).sum
          let score : ℚ := if 10 ≤ rv then 65 else if 5 ≤ rv then 50 else 35
          ([(address, score)],
           createAlerts g nowMs
             [(address, "DORMANT_REACTIVATION", score,
               [("dormant_days", ((lifetime / 86400 : Int) : ℚ)),
                ("recent_tx_count", rts.length), ("recent_value_eth", rv)])])
        else ([], g)
      else ([], g)
    | _, _ => ([], g)

/-- The fixed round-number set of `detect_round_amounts`. -/
def roundAmountSet : List ℚ := [1/10, 1/2, 1, 2, 5, 10, 20, 50, 100]

/-- Outgoing transactions with a round value in the last 90 days. -/
def roundTxns (g : Graph) (nowSec : Int) (address : String) : List Txn :=
  g.txns.filter (fun t =>
    t.src == address && roundAmountSet.contains t.value &&
    decide (nowSec - 90 * 24 * 3600 ≤ t.time))

/-- `detect_round_amounts` (aml_analytics.py:267-309). -/
def detect_round_amounts (g : Graph) (nowSec nowMs : Int) (address : String) :
    List (String × ℚ) × Graph :=
  match g.findAddr address with
  | none => ([], g)
  | some _ =>
    let cnt := (roundTxns g nowSec address).length
    if 5 ≤ cnt then
      let score : ℚ := if 20 ≤ cnt then 50 else if 10 ≤ cnt then 35 else 25
      ([(address, score)],
       createAlerts g nowMs
         [(address, "ROUND_AMOUNTS", score, [("round_tx_count", cnt)])])
    else ([], g)

/-- The `ORDER BY timestamp` collected timestamps of `detect_timing_patterns`. -/
def timingStamps (g : Graph) (nowSec : Int) (address : String) : List Int :=
  ((g.txns.filter (fun t =>
      t.src == address && decide (nowSec - 30 * 24 * 3600 ≤ t.time))).map
    (fun t => t.time)).insertionSort (· ≤ ·)

/-- `detect_timing_patterns` (aml_analytics.py:312-364). -/
def detect_timing_patterns (g : Graph) (nowSec nowMs : Int) (address : String) :
    List (String × ℚ) × Graph :=
  match g.findAddr address with
  | none => ([], g)
  | some _ =>
    let tss := timingStamps g nowSec address
    if 10 ≤ tss.length then
      let intervals : List Int := (tss.zip tss.tail).map (fun p => p.2 - p.1)
      let n := intervals.length
      let avg : ℚ := (intervals.map (fun i => (i : ℚ))).sum / (n : ℚ)
      let variance : ℚ := ((intervals.map (fun i => ((i : ℚ) - avg) ^ 2)).sum) / (n : ℚ)
      if variance < 3600 * 3600 ∧ avg < 24 * 3600 then
        let score : ℚ := if avg ≤ 3600 then 55 else if avg ≤ 7200 then 45 else 35
        ([(address, score)],
         createAlerts g nowMs
           [(address, "TIMING_PATTERN", score,
             [("avg_interval_hours", avg / 3600), ("tx_count", tss.length)])])
      else ([], g)
    else ([], g)

/-- The qualifying `(r1, r2)` round-trip rows of `detect_wash_trading`
(`r1` and `r2` come from separate `MATCH` clauses, so no uniqueness
constraint relates them). -/
def washPairs (g : Graph) (since : Int) (address : String) : List (Transfer × Transfer) :=
  (g.transfers.filter (fun r1 => r1.src == address)).flatMap (fun r1 =>
    (g.transfers.filter (fun r2 =>
        r2.src == r1.dst && r2.dst == address &&
        decide (since ≤ r1.last_ts) && decide (since ≤ r2.last_ts) &&
        decide (3 ≤ r1.count) && decide (3 ≤ r2.count) &&
        decide (|r1.value_sum - r2.value_sum| < r1.value_sum * (1/10)))).map
      (fun r2 => (r1, r2)))

/-- `detect_wash_trading` (aml_analytics.py:367-412). -/
def detect_wash_trading (g : Graph) (nowSec nowMs : Int) (address : String) :
    List (String × ℚ) × Graph :=
  match g.findAddr address with
  | none => ([], g)
  | some _ =>
    let ps := washPairs g (nowSec - 90 * 24 * 3600) address
    if ps = [] then ([], g)
    else
      let counterparties : Nat := ((ps.map (fun p => p.1.dst)).dedup).length
      let total_roundtrips : Nat := (ps.map (fun p => p.1.count + p.2.count)).sum
      let score : ℚ :=
        if 20 ≤ total_roundtrips then 70 else if 10 ≤ total_roundtrips then 55 else 40
      ([(address, score)],
       createAlerts g nowMs
         [(address, "WASH_TRADING", score,
           [("counterparties", counterparties), ("total_roundtrips", total_roundtrips)])])

/-- The dict returned by `run_all_analytics`, one field per key. -/
structure AnalyticsOut where
  structuring : List (String × ℚ)
  peel_chains : List (String × ℚ)
  mixer_activity : List (String × ℚ)
  taint : List (String × ℚ)
  circularity : List (String × ℚ)
  velocity_alert : List (String × ℚ)
  dormant_reactivation : List (String × ℚ)
  round_amounts : List (String × ℚ)
  timing_patterns : List (String × ℚ)
  wash_trading : List (String × ℚ)
  deriving Repr, DecidableEq

/-- `run_all_analytics` (aml_analytics.py:415-434): all ten detectors in
source order inside one write transaction, threading the store state. -/
def run_all_analytics (g : Graph) (nowSec nowMs : Int) (address : String) :
    AnalyticsOut × Graph :=
  let (r1, g1) := detect_structuring g nowSec nowMs address
  let (r2, g2) := detect_peel_chains g1 nowMs address
  let (r3, g3) := find_mixer_activity g2 nowMs address
  let (r4, g4) := run_taint_analysis g3 nowMs address
  let (r5, g5) := find_circular_txns g4 nowMs address
  let (r6, g6) := detect_velocity_alert g5 nowSec nowMs address
  let (r7, g7) := detect_dormant_reactivation g6 nowSec nowMs address
  let (r8, g8) := detect_round_amounts g7 nowSec nowMs address
  let (r9, g9) := detect_timing_patterns g8 nowSec nowMs address
  let (r10, g10) := detect_wash_trading g9 nowSec nowMs address
  (⟨r1, r2, r3, r4, r5, r6, r7, r8, r9, r10⟩, g10)

/-! ## Risk scorer (ml_models.py) -/

/-- `_normalize` (ml_models.py:142-146). -/
def _normalize (x lo hi : ℚ) : ℚ :=
  if hi ≤ lo then 0
  else (max lo (min hi x) - lo) / (hi - lo)

/-- `count(al)` over `OPTIONAL MATCH (a)<-[:FOR]-(al:Alert)`. -/
def alertCount (g : Graph) (address : String) : Nat :=
  (g.alerts.filter (fun al => al.forAddr == address)).length

/-- The score formula of `get_address_risk_score` as a function of the
(coalesced) features and the alert count. -/
def riskScoreOf (pr degree indeg outdeg triangles : ℚ) (alerts : Nat) : ℚ :=
  let pr_n := _normalize pr 0 (1/100)
  let deg_n := _normalize degree 0 100
  let indeg_n := _normalize indeg 0 60
  let outdeg_n := _normalize outdeg 0 60
  let tri_n := _normalize triangles 0 50
  let base := 30 * pr_n + 15 * deg_n + 15 * tri_n + 10 * indeg_n + 10 * outdeg_n
  let alerts_bonus : ℚ := min 40 ((alerts : ℚ) * 10)
  max 0 (min 100 (base + alerts_bonus))

/-- `get_address_risk_score` (ml_models.py:149-203): reads the coalesced
features and alert count, computes the clamped score and persists it on the
`Address` node; a missing node yields `0.0` with no write. -/
def get_address_risk_score (g : Graph) (address : String) : ℚ × Graph :=
  match g.findAddr address with
  | none => (0, g)
  | some a =>
    let score := riskScoreOf (a.pagerank.getD 0) (a.degree.getD 0) (a.inDegree.getD 0)
      (a.outDegree.getD 0) (a.triangles.getD 0) (alertCount g address)
    (score, g.setAddr address (fun n => { n with risk_score := some score }))

/-! ## Crawler (crawler.py) -/

/-- `BlockchainCrawler` constructor parameters. -/
structure CrawlCfg where
  max_depth : Nat := 3
  min_transaction_value_eth : ℚ := 1
  min_risk_score_to_expand : ℚ := 60
  max_addresses : Nat := 5000

/-- External collaborators and the wall clock, passed explicitly.
`ingest g a` models `core.ingest_address`: it returns the updated store and
the `ingested` count; both "no transactions" and an ingestion failure
surface as count `0`, which the callers treat alike by returning `None`. -/
structure AnalysisEnv where
  ingest : Graph → String → Graph × Nat
  nowSec : Int
  nowMs : Int

/-- `_calculate_quick_risk_score` (crawler.py:146-166): alert-count-only
score over the five original detector keys, capped at 100. -/
def _calculate_quick_risk_score (analytics : AnalyticsOut) : ℚ :=
  let score : ℚ :=
    (if analytics.structuring = [] then 0
     else min 30 ((analytics.structuring.length : ℚ) * 15)) +
    (if analytics.peel_chains = [] then 0
     else min 40 ((analytics.peel_chains.length : ℚ) * 20)) +
    (if analytics.mixer_activity = [] then 0
     else min 50 ((analytics.mixer_activity.length : ℚ) * 25)) +
    (if analytics.taint = [] then 0
     else min 40 ((analytics.taint.length : ℚ) * 20)) +
    (if analytics.circularity = [] then 0
     else min 35 ((analytics.circularity.length : ℚ) * 15))
  min 100 score

/-- One entry of `suspicious_found`. -/
structure SuspiciousEntry where
  address : String
  depth : Nat
  risk_score : ℚ
  alerts : AnalyticsOut
  deriving Repr, DecidableEq

/-- `BlockchainCrawler._analyze_address` (crawler.py:101-144): ingest,
run the pipeline, quick-score, and report the address only when the quick
score reaches the suspicion floor `40`. -/
def _analyze_address (env : AnalysisEnv) (g : Graph) (address : String)
    (depth : Nat) : Option SuspiciousEntry × Graph :=
  let (g1, n) := env.ingest g address
  if n = 0 then (none, g1)
  else
    let (analytics, g2) := run_all_analytics g1 env.nowSec env.nowMs address
    let risk_score := _calculate_quick_risk_score analytics
    if 40 ≤ risk_score then (some ⟨address, depth, risk_score, analytics⟩, g2)
    else (none, g2)

/-- `BlockchainCrawler._get_connected_addresses` (crawler.py:168-191):
distinct undirected counterparties over `TRANSFER` edges with
`value_sum >= min_value`, `LIMIT 50`, lower-cased, empty ids dropped. -/
def crawlerConnected (cfg : CrawlCfg) (g : Graph) (address : String) : List String :=
  let others :=
    ((g.transfers.filter (fun r =>
        (r.src == address || r.dst == address) &&
        decide (cfg.min_transaction_value_eth ≤ r.value_sum))).map
      (fun r => if r.src == address then r.dst else r.src)).dedup.take 50
  (others.filter (fun a => a != "")).map String.toLower

/-- The crawler's mutable state.  `analyzed` and `child_enqueues` are
observation traces of the loop (the sequence of addresses handed to
`_analyze_address`, mirroring `stats["addresses_analyzed"]`, and the
`(parent depth, child depth)` of every child pushed onto `to_analyze`). -/
structure CrawlState where
  graph : Graph
  visited : List String
  to_analyze : List (String × Nat)
  suspicious_found : List SuspiciousEntry
  analyzed : List String
  child_enqueues : List (Nat × Nat)

/-- The `while` loop of `BlockchainCrawler.crawl` (crawler.py:62-91). -/
def crawlLoop (cfg : CrawlCfg) (env : AnalysisEnv) (st : CrawlState) : CrawlState :=
  match hq : st.to_analyze with
  | [] => st
  | (address, depth) :: rest =>
    if hv : cfg.max_addresses ≤ st.visited.length then st
    else if address ∈ st.visited ∨ cfg.max_depth < depth then
      crawlLoop cfg env { st with to_analyze := rest }
    else
      let st1 : CrawlState := { st with
        visited := address :: st.visited,
        to_analyze := rest,
        analyzed := st.analyzed ++ [address] }
      match _analyze_address env st1.graph address depth with
      | (none, g') => crawlLoop cfg env { st1 with graph := g' }
      | (some entry, g') =>
        if cfg.min_risk_score_to_expand ≤ entry.risk_score ∧ depth < cfg.max_depth then
          let conns := (crawlerConnected cfg g' address).filter
            (fun c => !(st1.visited.contains c))
          crawlLoop cfg env { st1 with
            graph := g',
            suspicious_found := st1.suspicious_found ++ [entry],
            to_analyze := rest ++ conns.map (fun c => (c, depth + 1)),
            child_enqueues := st1.child_enqueues ++ conns.map (fun _ => (depth, depth + 1)) }
        else
          crawlLoop cfg env { st1 with
            graph := g',
            suspicious_found := st1.suspicious_found ++ [entry] }
  termination_by (cfg.max_addresses - st.visited.length, st.to_analyze.length)
  decreasing_by
  all_goals simp_all
  all_goals omega

/-- `BlockchainCrawler.crawl` (crawler.py:48-99): seeds the FIFO worklist
with the lower-cased seed addresses at depth 0 and runs the loop. -/
def crawl (cfg : CrawlCfg) (env : AnalysisEnv) (seeds : List String) (g : Graph) :
    CrawlState :=
  crawlLoop cfg env
    { graph := g
      visited := []
      to_analyze := seeds.map (fun s => (s.toLower, 0))
      suspicious_found := []
      analyzed := []
      child_enqueues := [] }

/-! ## Auto-expansion (expansion.py) -/

/-- `AutoExpansion` constructor parameters. -/
structure ExpCfg where
  trigger_risk_score : ℚ := 70
  expansion_depth : Nat := 2
  min_connection_value_eth : ℚ := 1/2
  max_addresses_per_expansion : Nat := 50

/-- `AutoExpansion._calculate_risk_score` (expansion.py:181-197):
alert-count score over the five original keys, weights 15/25/30/25/20,
each term capped at twice its weight, total capped at 100. -/
def expansionCalcRiskScore (analytics : AnalyticsOut) : ℚ :=
  let contrib : List (String × ℚ) → ℚ → ℚ := fun alerts w =>
    if alerts = [] then 0 else min (w * 2) ((alerts.length : ℚ) * w)
  min 100 (contrib analytics.structuring 15 + contrib analytics.peel_chains 25 +
    contrib analytics.mixer_activity 30 + contrib analytics.taint 25 +
    contrib analytics.circularity 20)

/-- Total alert count of a pipeline result
(`sum(len(v) for v in analytics.values())`). -/
def alertTotal (a : AnalyticsOut) : Nat :=
  a.structuring.length + a.peel_chains.length + a.mixer_activity.length +
  a.taint.length + a.circularity.length + a.velocity_alert.length +
  a.dormant_reactivation.length + a.round_amounts.length +
  a.timing_patterns.length + a.wash_trading.length

/-- One `_full_analysis` result dict. -/
structure ExpAnalysis where
  address : String
  risk_score : ℚ
  alert_count : Nat
  alerts : AnalyticsOut
  transactions_ingested : Nat
  deriving Repr, DecidableEq

/-- `AutoExpansion._full_analysis` (expansion.py:144-179): ingest, run the
pipeline, and score with the simplified alert-based
`_calculate_risk_score` — not with `ml_models.get_address_risk_score`. -/
def _full_analysis (env : AnalysisEnv) (g : Graph) (address : String) :
    Option ExpAnalysis × Graph :=
  let (g1, n) := env.ingest g address
  if n = 0 then (none, g1)
  else
    let (analytics, g2) := run_all_analytics g1 env.nowSec env.nowMs address
    let alert_count := alertTotal analytics
    let risk_score := expansionCalcRiskScore analytics
    (some ⟨address, risk_score, alert_count, analytics, n⟩, g2)

/-- `AutoExpansion._get_connected_addresses` (expansion.py:199-228):
counterparties over qualifying undirected `TRANSFER` edges, ordered by
summed `value_sum` descending, `LIMIT max_addresses_per_expansion`,
lower-cased, empty ids dropped. -/
def expansionConnected (cfg : ExpCfg) (g : Graph) (address : String) : List String :=
  let rels := g.transfers.filter (fun r =>
    (r.src == address || r.dst == address) &&
    decide (cfg.min_connection_value_eth ≤ r.value_sum))
  let others := (rels.map (fun r => if r.src == address then r.dst else r.src)).dedup
  let totals := others.map (fun o =>
    (o, ((rels.filter (fun r =>
        (if r.src == address then r.dst else r.src) == o)).map
      (fun r => r.value_sum)).sum))
  let sorted := totals.insertionSort (fun x y => y.2 ≤ x.2)
  (((sorted.map (fun p => p.1)).take cfg.max_addresses_per_expansion).filter
    (fun a => a != "")).map String.toLower

/-- The list of expansion-result dicts built by `_expand_from_address`, as
a first-order forest.  `node conn parent depth analysis hasSubs subs rest`:
one result dict for `conn` (with `"depth": depth`), `hasSubs` records
whether the `"sub_expansions"` key was set (it is set exactly when the
risk gate passed, possibly to an empty list), `rest` are the later results
of the same loop. -/
inductive ExpForest where
  | nil : ExpForest
  | node (address parent : String) (depth : Nat) (analysis : ExpAnalysis)
      (hasSubs : Bool) (subs : ExpForest) (rest : ExpForest) : ExpForest
  deriving Repr, DecidableEq

/-- The `AutoExpansion` mutable state (`self.expanded_addresses`,
`self.expansion_map`, `self.stats`) plus the graph store. -/
structure ExpState where
  graph : Graph
  expanded_addresses : List String
  expansion_map : List (String × List String)
  expansions_triggered : Nat
  total_addresses_analyzed : Nat
  high_risk_found : Nat
  deriving Repr, DecidableEq

/-- The `for conn_addr in connected` loop of `_expand_from_address`
(expansion.py:112-141); `recurse` is the recursive call at `depth + 1`. -/
def expandLoop (env : AnalysisEnv) (trigger : ℚ)
    (recurse : String → ExpState → ExpForest × ExpState)
    (parent : String) (depth : Nat) :
    List String → ExpState → ExpForest × ExpState
  | [], st => (.nil, st)
  | conn :: rest, st =>
    if st.expanded_addresses.contains conn then
      expandLoop env trigger recurse parent depth rest st
    else
      let (analysis, g') := _full_analysis env st.graph conn
      let st1 : ExpState := { st with
        graph := g'
        expanded_addresses := conn :: st.expanded_addresses
        total_addresses_analyzed := st.total_addresses_analyzed + 1 }
      match analysis with
      | none => expandLoop env trigger recurse parent depth rest st1
      | some an =>
        if trigger ≤ an.risk_score then
          let st2 := { st1 with high_risk_found := st1.high_risk_found + 1 }
          let (subs, st3) := recurse conn st2
          let (rst, st4) := expandLoop env trigger recurse parent depth rest st3
          (.node conn parent (depth + 1) an true subs rst, st4)
        else
          let (rst, st2) := expandLoop env trigger recurse parent depth rest st1
          (.node conn parent (depth + 1) an false .nil rst, st2)

/-- `_expand_from_address` unrolled on the remaining depth budget
`expansion_depth - depth` (the guard `depth >= self.expansion_depth`
returns `[]` exactly when the budget is zero). -/
def expandFromAux (cfg : ExpCfg) (env : AnalysisEnv) :
    Nat → String → Nat → ExpState → ExpForest × ExpState
  | 0, _, _, st => (.nil, st)
  | r + 1, address, depth, st =>
    let connected := expansionConnected cfg st.graph address
    let st1 : ExpState := { st with
      expansion_map := st.expansion_map ++ [(address, connected)]
      expansions_triggered := st.expansions_triggered + 1 }
    expandLoop env cfg.trigger_risk_score
      (fun a s => expandFromAux cfg env r a (depth + 1) s)
      address depth connected st1

/-- `AutoExpansion._expand_from_address` (expansion.py:87-142). -/
def _expand_from_address (cfg : ExpCfg) (env : AnalysisEnv) (address : String)
    (depth : Nat) (st : ExpState) : ExpForest × ExpState :=
  expandFromAux cfg env (cfg.expansion_depth - depth) address depth st

/-- The results dict of `analyze_with_expansion` plus the final object
state (`self.expansion_map` etc. survive on the `AutoExpansion` object). -/
structure ExpResults where
  initial_address : String
  initial_analysis : Option ExpAnalysis
  expansions : ExpForest
  finalState : ExpState
  deriving Repr, DecidableEq

/-- `AutoExpansion.analyze_with_expansion` (expansion.py:43-85): full
analysis of the seed; expansion starts (from depth 0) only when the seed's
`_calculate_risk_score` reaches `trigger_risk_score`. -/
def analyze_with_expansion (cfg : ExpCfg) (env : AnalysisEnv)
    (initial_address : String) (g : Graph) : ExpResults :=
  let st0 : ExpState := ⟨g, [], [], 0, 0, 0⟩
  let (an, st1) :=
    let (a, g') := _full_analysis env st0.graph initial_address
    (a, { st0 with graph := g' })
  let st2 : ExpState := { st1 with
    expanded_addresses := initial_address.toLower :: st1.expanded_addresses }
  match an with
  | none => ⟨initial_address, none, .nil, st2⟩
  | some a =>
    if cfg.trigger_risk_score ≤ a.risk_score then
      let (exps, st3) := _expand_from_address cfg env initial_address 0 st2
      ⟨initial_address, some a, exps, st3⟩
    else ⟨initial_address, some a, .nil, st2⟩

/-! ## Automation controller (automation.py) -/

/-- Job statuses. -/
inductive JobStatus where
  | started | completed | failed | cancelled
  deriving Repr, DecidableEq

/-- One entry of `self.active_jobs`. -/
structure Job where
  job_id : String
  jtype : String
  status : JobStatus
  result : Option String
  error : Option String
  deriving Repr, DecidableEq

/-- The `AutomationController` registry. -/
structure AutomationController where
  active_jobs : List (String × Job)
  job_counter : Nat
  deriving Repr, DecidableEq

/-- Dict lookup in the registry. -/
def findJob : List (String × Job) → String → Option Job
  | [], _ => none
  | p :: rest, id => if p.1 = id then some p.2 else findJob rest id

/-- `get_job_status` (automation.py:239-241). -/
def get_job_status (c : AutomationController) (job_id : String) : Option Job :=
  findJob c.active_jobs job_id

/-- In-place mutation of the registry entry `job_id` (no-op if absent). -/
def setJobFields (c : AutomationController) (job_id : String) (f : Job → Job) :
    AutomationController :=
  { c with active_jobs := c.active_jobs.map (fun p => if p.1 = job_id then (p.1, f p.2) else p) }

/-- `cancel_job` (automation.py:260-280): `False` when the id is unknown;
a `started` job becomes `cancelled` (returning `True`); any other status
is left untouched and `False` is returned. -/
def cancel_job (c : AutomationController) (job_id : String) :
    Bool × AutomationController :=
  match get_job_status c job_id with
  | none => (false, c)
  | some j =>
    if j.status = .started then
      (true, setJobFields c job_id (fun j' => { j' with
        status := .cancelled, result := some "Job cancelled by user" }))
    else (false, c)

/-- `_generate_job_id` (automation.py:282-286). -/
def _generate_job_id (jtype ts : String) (counter : Nat) : String :=
  jtype ++ "_" ++ ts ++ "_" ++ toString counter

/-- The registration common to `start_crawler_job` / `start_monitor_job` /
`start_expansion_job` with `run_async=True` (automation.py:49-83): a
`started` job is put in the registry and a worker thread is spawned. -/
def startJobAsync (c : AutomationController) (jtype ts : String) :
    Job × AutomationController :=
  let counter := c.job_counter + 1
  let job_id := _generate_job_id jtype ts counter
  let job : Job := ⟨job_id, jtype, .started, none, none⟩
  (job, { c with job_counter := counter, active_jobs := c.active_jobs ++ [(job_id, job)] })

/-- The finalisation in `_run_crawler_thread` / `_run_monitor_thread` /
`_run_expansion_thread` (automation.py:194-237): when the worker function
returns, the job's `status` is overwritten with `completed` (or `failed`
with the error message, when it raised) without consulting the current
status.  None of `crawl`, the monitor loop or `analyze_with_expansion`
reads a cancellation flag — their embeddings above take no such input. -/
def workerFinish (c : AutomationController) (job_id : String) (ok : Bool)
    (payload : String) : AutomationController :=
  if ok then
    setJobFields c job_id (fun j => { j with status := .completed, result := some payload })
  else
    setJobFields c job_id (fun j => { j with status := .failed, error := some payload })


/-! ## Helper lemmas -/

theorem find?_map_ite (l : List AddressNode) (x : String) (f : AddressNode → AddressNode)
    (a : AddressNode) (h : l.find? (fun n => n.address == x) = some a)
    (hf : ∀ n, (f n).address = n.address) :
    (l.map (fun n => if n.address = x then f n else n)).find?
      (fun n => n.address == x) = some (f a) := by
  induction l with
  | nil => simp at h
  | cons n l ih =>
    by_cases hn : n.address = x
    · rw [List.find?_cons_of_pos _ (by simp [hn])] at h
      obtain rfl : n = a := by simpa using h
      simp only [List.map_cons, if_pos hn]
      exact List.find?_cons_of_pos _ (by simp [hf, hn])
    · rw [List.find?_cons_of_neg _ (by simp [hn])] at h
      simp only [List.map_cons, if_neg hn]
      rw [List.find?_cons_of_neg _ (by simp [hn])]
      exact ih h

theorem findAddr_setAddr (g : Graph) (x : String) (f : AddressNode → AddressNode)
    (a : AddressNode) (h : g.findAddr x = some a)
    (hf : ∀ n, (f n).address = n.address) :
    (g.setAddr x f).findAddr x = some (f a) := by
  unfold Graph.findAddr Graph.setAddr at *
  exact find?_map_ite g.addrs x f a h hf

/-! ## C4 and C7 — the Risk Scorer -/

/-- The Risk Scorer output as §4.2 of the spec words it: min-max-normalized
structural features weighted 30 (pagerank, saturating at 0.01), 15 (degree),
10 (in-degree), 10 (out-degree), 15 (triangle count), plus a bonus of
`min(40, 10 * alert_count)`, clamped to [0,100]; an absent feature defaults
to 0 before normalization.  Stated from the spec's words, to be compared
with `get_address_risk_score` from the source. -/
def specRiskScore (a : AddressNode) (alerts : Nat) : ℚ :=
  let base :=
    30 * _normalize (a.pagerank.getD 0) 0 (1/100) +
    15 * _normalize (a.degree.getD 0) 0 100 +
    10 * _normalize (a.inDegree.getD 0) 0 60 +
    10 * _normalize (a.outDegree.getD 0) 0 60 +
    15 * _normalize (a.triangles.getD 0) 0 50
  max 0 (min 100 (base + min 40 ((alerts : ℚ) * 10)))

/-- C4: for every address present in the store, the Risk Scorer returns
exactly the spec formula — base (weights 30/15/10/10/15 over the
min-max-normalized, 0-defaulted features) plus the alert bonus
`min(40, 10*alerts)`, clamped to [0,100] — and writes the score back onto
the `Address` node.  Missing features never raise: they are coalesced to 0
inside the query (`Option.getD 0` here). -/
theorem c4_risk_scorer (g : Graph) (address : String) (a : AddressNode)
    (h : g.findAddr address = some a) :
    (get_address_risk_score g address).1 = specRiskScore a (alertCount g address) ∧
    0 ≤ (get_address_risk_score g address).1 ∧
    (get_address_risk_score g address).1 ≤ 100 ∧
    (get_address_risk_score g address).2.findAddr address =
      some { a with risk_score := some (get_address_risk_score g address).1 } := by
  unfold get_address_risk_score
  simp only [h]
  refine ⟨?_, le_max_left 0 _, max_le (by norm_num) (min_le_left 100 _), ?_⟩
  · simp only [riskScoreOf, specRiskScore]
    ring_nf
  · exact findAddr_setAddr g address _ a h (fun n => rfl)

/-- The one `Address` node of the store `gScorer`. -/
def aScorer : AddressNode :=
  { address := "a", pagerank := some (1/200), degree := some 5, triangles := some 2 }

/-- A one-node store used to instantiate the Risk Scorer theorems. -/
def gScorer : Graph :=
  { addrs := [aScorer]
    txns := [], transfers := []
    alerts := [⟨⟨"STRUCTURING", "a", 7⟩, "STRUCTURING", 20, [], 7, "a"⟩] }

/-- Witness for C4 at a concrete store. -/
theorem c4_risk_scorer_witness :
    (get_address_risk_score gScorer "a").1 = specRiskScore aScorer (alertCount gScorer "a") :=
  (c4_risk_scorer gScorer "a" aScorer rfl).1

/-- Monotonicity of the score formula in the alert count. -/
theorem riskScoreOf_mono (pr d i o t : ℚ) (n m : Nat) (hnm : n ≤ m) :
    riskScoreOf pr d i o t n ≤ riskScoreOf pr d i o t m := by
  unfold riskScoreOf
  have hc : ((n : ℚ)) * 10 ≤ (m : ℚ) * 10 := by
    have : ((n : ℚ)) ≤ (m : ℚ) := by exact_mod_cast hnm
    linarith
  exact max_le_max (le_refl 0)
    (min_le_min (le_refl 100) (add_le_add_left (min_le_min (le_refl 40) hc) _))

/-- C7: appending a new (high-severity) Alert for an address, with the
structural features unchanged, never decreases the Risk Scorer's
subsequently computed score — the score is monotone in the alert count. -/
theorem c7_risk_monotone (g : Graph) (address : String) (al : Alert)
    (hfor : al.forAddr = address) (hsev : (50 : ℚ) ≤ al.score) :
    (get_address_risk_score g address).1 ≤
      (get_address_risk_score { g with alerts := g.alerts ++ [al] } address).1 := by
  have hcount : alertCount { g with alerts := g.alerts ++ [al] } address =
      alertCount g address + 1 := by
    unfold alertCount
    simp [List.filter_append, hfor]
  have hfind : ({ g with alerts := g.alerts ++ [al] } : Graph).findAddr address =
      g.findAddr address := rfl
  unfold get_address_risk_score
  simp only [hfind, hcount]
  cases hf : g.findAddr address with
  | none => simp
  | some a =>
    simp only
    exact riskScoreOf_mono _ _ _ _ _ _ _ (Nat.le_succ _)

/-- Witness for C7 at a concrete store and a concrete severity-60 alert. -/
theorem c7_risk_monotone_witness :
    (get_address_risk_score gScorer "a").1 ≤
      (get_address_risk_score
        { gScorer with alerts :=
            gScorer.alerts ++ [⟨⟨"MIXER_PATTERN", "a", 9⟩, "MIXER_PATTERN", 60, [], 9, "a"⟩] }
        "a").1 :=
  c7_risk_monotone gScorer "a" ⟨⟨"MIXER_PATTERN", "a", 9⟩, "MIXER_PATTERN", 60, [], 9, "a"⟩
    rfl (by norm_num)

/-! ## C6 and C9 — the Automation Controller job lifecycle -/

theorem findJob_setJobFields (jobs : List (String × Job)) (id : String) (f : Job → Job) :
    findJob (jobs.map (fun p => if p.1 = id then (p.1, f p.2) else p)) id =
      (findJob jobs id).map f := by
  induction jobs with
  | nil => rfl
  | cons p rest ih =>
    by_cases hp : p.1 = id
    · simp [findJob, hp]
    · simp [findJob, hp, ih]

theorem get_job_status_setJobFields (c : AutomationController) (job_id : String)
    (f : Job → Job) :
    get_job_status (setJobFields c job_id f) job_id =
      (get_job_status c job_id).map f := by
  unfold get_job_status setJobFields
  exact findJob_setJobFields c.active_jobs job_id f

theorem cancel_job_of_none (c : AutomationController) (id : String)
    (h : get_job_status c id = none) : cancel_job c id = (false, c) := by
  unfold cancel_job
  rw [h]

theorem cancel_job_of_terminal (c : AutomationController) (id : String) (j : Job)
    (h : get_job_status c id = some j) (hs : j.status ≠ .started) :
    cancel_job c id = (false, c) := by
  unfold cancel_job
  rw [h]
  simp [hs]

theorem cancel_job_of_started (c : AutomationController) (id : String) (j : Job)
    (h : get_job_status c id = some j) (hs : j.status = .started) :
    cancel_job c id = (true, setJobFields c id (fun j' => { j' with
      status := .cancelled, result := some "Job cancelled by user" })) := by
  unfold cancel_job
  rw [h]
  simp [hs]

theorem get_after_cancel_started (c : AutomationController) (id : String) (j : Job)
    (h : get_job_status c id = some j) (hs : j.status = .started) :
    get_job_status (cancel_job c id).2 id =
      some { j with status := .cancelled, result := some "Job cancelled by user" } := by
  rw [cancel_job_of_started c id j h hs, get_job_status_setJobFields, h]
  rfl

/-- C6: `cancel_job` returns `false` and leaves the registry untouched when
the id is unknown or the job is already terminal; on a `started` job it
returns `true`, after which `get_job_status` reports `cancelled` and a
second `cancel_job` on the same id returns `false`. -/
theorem c6_cancel_job (c : AutomationController) (job_id : String) :
    (get_job_status c job_id = none → cancel_job c job_id = (false, c)) ∧
    (∀ j, get_job_status c job_id = some j → j.status ≠ .started →
      cancel_job c job_id = (false, c)) ∧
    (∀ j, get_job_status c job_id = some j → j.status = .started →
      (cancel_job c job_id).1 = true ∧
      (get_job_status (cancel_job c job_id).2 job_id).map Job.status =
        some .cancelled ∧
      (cancel_job (cancel_job c job_id).2 job_id).1 = false) := by
  refine ⟨cancel_job_of_none c job_id, cancel_job_of_terminal c job_id, ?_⟩
  intro j hj hs
  refine ⟨by rw [cancel_job_of_started c job_id j hj hs], ?_, ?_⟩
  · rw [get_after_cancel_started c job_id j hj hs]
    rfl
  · rw [cancel_job_of_terminal (cancel_job c job_id).2 job_id
      { j with status := .cancelled, result := some "Job cancelled by user" }
      (get_after_cancel_started c job_id j hj hs) (by simp)]

/-- A concrete registry: one crawler job started asynchronously. -/
def cAuto : AutomationController := (startJobAsync ⟨[], 0⟩ "crawler" "t").2

/-- Witness for C6: the started job of `cAuto` cancels successfully, reads
back as `cancelled`, and a second cancel fails. -/
theorem c6_cancel_job_witness :
    (cancel_job cAuto "crawler_t_1").1 = true ∧
    (get_job_status (cancel_job cAuto "crawler_t_1").2 "crawler_t_1").map Job.status =
      some .cancelled ∧
    (cancel_job (cancel_job cAuto "crawler_t_1").2 "crawler_t_1").1 = false :=
  (c6_cancel_job cAuto "crawler_t_1").2.2 ⟨"crawler_t_1", "crawler", .started, none, none⟩
    rfl rfl

/-- C9 (implicit): after a successful `cancel_job`, the background worker's
finalisation still overwrites the job's status unconditionally, so the
final status reported by `get_job_status` is `completed` (or `failed`),
never `cancelled` — the worker loops never consult the cancellation flag
(their embeddings take no such input). -/
theorem c9_worker_overwrites_cancel (c : AutomationController) (job_id : String) (j : Job)
    (h : get_job_status c job_id = some j) (hs : j.status = .started) :
    (get_job_status (cancel_job c job_id).2 job_id).map Job.status = some .cancelled ∧
    ∀ ok payload,
      (get_job_status (workerFinish (cancel_job c job_id).2 job_id ok payload) job_id).map
          Job.status = some (if ok then JobStatus.completed else .failed) ∧
      (get_job_status (workerFinish (cancel_job c job_id).2 job_id ok payload) job_id).map
          Job.status ≠ some .cancelled := by
  have hget := get_after_cancel_started c job_id j h hs
  refine ⟨by rw [hget]; rfl, ?_⟩
  intro ok payload
  cases ok with
  | true =>
    have hfin : get_job_status
        (workerFinish (cancel_job c job_id).2 job_id true payload) job_id =
        some { j with status := .completed, result := some payload } := by
      unfold workerFinish
      rw [if_pos rfl, get_job_status_setJobFields, hget]
      rfl
    rw [hfin]
    exact ⟨rfl, by simp⟩
  | false =>
    have hfin : get_job_status
        (workerFinish (cancel_job c job_id).2 job_id false payload) job_id =
        some ⟨j.job_id, j.jtype, .failed, some "Job cancelled by user", some payload⟩ := by
      unfold workerFinish
      rw [if_neg (by simp), get_job_status_setJobFields, hget]
      rfl
    rw [hfin]
    exact ⟨rfl, by simp⟩

/-- Witness for C9: cancel the started job of `cAuto`, then let the worker
finish successfully — the status read back is `completed`, not `cancelled`. -/
theorem c9_worker_overwrites_cancel_witness :
    (get_job_status
        (workerFinish (cancel_job cAuto "crawler_t_1").2 "crawler_t_1" true "done")
        "crawler_t_1").map Job.status = some JobStatus.completed ∧
    (get_job_status
        (workerFinish (cancel_job cAuto "crawler_t_1").2 "crawler_t_1" true "done")
        "crawler_t_1").map Job.status ≠ some JobStatus.cancelled :=
  ((c9_worker_overwrites_cancel cAuto "crawler_t_1"
      ⟨"crawler_t_1", "crawler", .started, none, none⟩ rfl rfl).2 true "done")

/-! ## C5 — crawler invariants -/

def CrawlInv (cfg : CrawlCfg) (st : CrawlState) : Prop :=
  st.visited.length ≤ cfg.max_addresses ∧ st.analyzed.Nodup ∧
  (∀ x ∈ st.analyzed, x ∈ st.visited) ∧
  ∀ pc ∈ st.child_enqueues, pc.2 = pc.1 + 1 ∧ pc.2 ≤ cfg.max_depth

theorem crawlLoop_inv (cfg : CrawlCfg) (env : AnalysisEnv) (st : CrawlState) :
    CrawlInv cfg st → CrawlInv cfg (crawlLoop cfg env st) := by
  induction st using crawlLoop.induct cfg env with
  | case1 x hx =>
    intro h
    rw [crawlLoop, hx]
    exact h
  | case2 x address depth rest hx hv =>
    intro h
    rw [crawlLoop, hx]
    simp only [dif_pos hv]
    exact h
  | case3 x address depth rest hx hv hskip ih =>
    intro h
    rw [crawlLoop, hx]
    simp only [dif_neg hv, if_pos hskip]
    exact ih h
  | case4 x address depth rest hx hv hskip st1 g2 hana ih =>
    intro h
    obtain ⟨h1, h2, h3, h4⟩ := h
    rw [not_or] at hskip
    rw [crawlLoop, hx]
    simp only [dif_neg hv, if_neg (not_or.mpr hskip), hana]
    apply ih
    refine ⟨by simp [st1]; omega, ?_, ?_, h4⟩
    · simp only [st1, List.nodup_append, List.nodup_cons]
      exact ⟨h2, by simp, by simpa using fun hmem => hskip.1 (h3 address hmem)⟩
    · intro y hy
      simp only [st1, List.mem_append, List.mem_singleton] at hy ⊢
      rcases hy with hy | rfl
      · exact List.mem_cons_of_mem _ (h3 y hy)
      · exact List.mem_cons_self _ _
  | case5 x address depth rest hx hv hskip st1 entry g2 hana hexp conns ih =>
    intro h
    obtain ⟨h1, h2, h3, h4⟩ := h
    rw [not_or] at hskip
    rw [crawlLoop, hx]
    simp only [dif_neg hv, if_neg (not_or.mpr hskip), hana, if_pos hexp]
    apply ih
    refine ⟨by simp [st1]; omega, ?_, ?_, ?_⟩
    · simp only [st1, List.nodup_append, List.nodup_cons]
      exact ⟨h2, by simp, by simpa using fun hmem => hskip.1 (h3 address hmem)⟩
    · intro y hy
      simp only [st1, List.mem_append, List.mem_singleton] at hy ⊢
      rcases hy with hy | rfl
      · exact List.mem_cons_of_mem _ (h3 y hy)
      · exact List.mem_cons_self _ _
    · intro pc hpc
      simp only [st1, List.mem_append, List.mem_map] at hpc
      rcases hpc with hpc | ⟨c, _, rfl⟩
      · exact h4 pc hpc
      · exact ⟨rfl, hexp.2⟩
  | case6 x address depth rest hx hv hskip st1 entry g2 hana hnexp ih =>
    intro h
    obtain ⟨h1, h2, h3, h4⟩ := h
    rw [not_or] at hskip
    rw [crawlLoop, hx]
    simp only [dif_neg hv, if_neg (not_or.mpr hskip), hana, if_neg hnexp]
    apply ih
    refine ⟨by simp [st1]; omega, ?_, ?_, h4⟩
    · simp only [st1, List.nodup_append, List.nodup_cons]
      exact ⟨h2, by simp, by simpa using fun hmem => hskip.1 (h3 address hmem)⟩
    · intro y hy
      simp only [st1, List.mem_append, List.mem_singleton] at hy ⊢
      rcases hy with hy | rfl
      · exact List.mem_cons_of_mem _ (h3 y hy)
      · exact List.mem_cons_self _ _

/-- C5: in every crawl, the visited set never exceeds `max_addresses`, no
address is handed to `_analyze_address` twice (deduplication via the
visited set of canonical lower-cased addresses), and every child enqueued
onto the worklist is enqueued at its parent's depth + 1, which never
exceeds `max_depth`. -/
theorem c5_crawler_invariants (cfg : CrawlCfg) (env : AnalysisEnv) (seeds : List String)
    (g : Graph) :
    (crawl cfg env seeds g).visited.length ≤ cfg.max_addresses ∧
    (crawl cfg env seeds g).analyzed.Nodup ∧
    List.Forall (fun pc : Nat × Nat => pc.2 = pc.1 + 1 ∧ pc.2 ≤ cfg.max_depth)
      (crawl cfg env seeds g).child_enqueues := by
  have h := crawlLoop_inv cfg env
    { graph := g, visited := [], to_analyze := seeds.map (fun s => (s.toLower, 0)),
      suspicious_found := [], analyzed := [], child_enqueues := [] }
    ⟨by simp, List.nodup_nil, by simp, by simp⟩
  exact ⟨h.1, h.2.1, List.forall_iff_forall_mem.mpr h.2.2.2⟩

/-! ## C10 — the quick risk score reads only the five original alert keys -/

/-- An all-empty pipeline result. -/
def emptyAnalytics : AnalyticsOut := ⟨[], [], [], [], [], [], [], [], [], []⟩

/-- A trivial environment: ingestion reports one transaction and leaves the
store unchanged. -/
def envTriv : AnalysisEnv := ⟨fun g _ => (g, 1), 0, 0⟩

/-- C10 (implicit): `_calculate_quick_risk_score` depends only on the five
original keys `structuring`/`peel_chains`/`mixer_activity`/`taint`/
`circularity`; when those five lists are empty (whatever the other five
detectors reported) the quick score is 0, so `_analyze_address` never
reports such an address as suspicious (floor 40) — hence the crawler
neither records it nor expands from it. -/
theorem c10_quick_score_original_keys_only (o o' : AnalyticsOut)
    (h1 : o.structuring = o'.structuring) (h2 : o.peel_chains = o'.peel_chains)
    (h3 : o.mixer_activity = o'.mixer_activity) (h4 : o.taint = o'.taint)
    (h5 : o.circularity = o'.circularity) :
    _calculate_quick_risk_score o = _calculate_quick_risk_score o' ∧
    (o.structuring = [] → o.peel_chains = [] → o.mixer_activity = [] → o.taint = [] →
      o.circularity = [] → _calculate_quick_risk_score o = 0) ∧
    ∀ env g address depth,
      (run_all_analytics (env.ingest g address).1 env.nowSec env.nowMs
        address).1.structuring = [] →
      (run_all_analytics (env.ingest g address).1 env.nowSec env.nowMs
        address).1.peel_chains = [] →
      (run_all_analytics (env.ingest g address).1 env.nowSec env.nowMs
        address).1.mixer_activity = [] →
      (run_all_analytics (env.ingest g address).1 env.nowSec env.nowMs
        address).1.taint = [] →
      (run_all_analytics (env.ingest g address).1 env.nowSec env.nowMs
        address).1.circularity = [] →
      (_analyze_address env g address depth).1 = none := by
  have hzero : ∀ o₀ : AnalyticsOut, o₀.structuring = [] → o₀.peel_chains = [] →
      o₀.mixer_activity = [] → o₀.taint = [] → o₀.circularity = [] →
      _calculate_quick_risk_score o₀ = 0 := by
    intro o₀ e1 e2 e3 e4 e5
    unfold _calculate_quick_risk_score
    rw [e1, e2, e3, e4, e5]
    norm_num
  refine ⟨?_, hzero o, ?_⟩
  · unfold _calculate_quick_risk_score
    rw [h1, h2, h3, h4, h5]
  · intro env g address depth e1 e2 e3 e4 e5
    unfold _analyze_address
    rcases hi : env.ingest g address with ⟨g1, n⟩
    rw [hi] at e1 e2 e3 e4 e5
    dsimp only at e1 e2 e3 e4 e5 ⊢
    rcases hn : n with _ | n'
    · rfl
    · rcases hru : run_all_analytics g1 env.nowSec env.nowMs address with ⟨analytics, g2⟩
      rw [hru] at e1 e2 e3 e4 e5
      dsimp only at e1 e2 e3 e4 e5
      simp only [hru]
      have hq : _calculate_quick_risk_score analytics = 0 := hzero _ e1 e2 e3 e4 e5
      rw [hq]
      norm_num

/-- Witness for C10: on the empty store every detector is silent, so the
crawler's analysis of any address yields no suspicious record. -/
theorem c10_quick_score_witness :
    (_analyze_address envTriv ⟨[], [], [], []⟩ "a" 0).1 = none :=
  (c10_quick_score_original_keys_only emptyAnalytics emptyAnalytics
    rfl rfl rfl rfl rfl).2.2 envTriv ⟨[], [], [], []⟩ "a" 0 rfl rfl rfl rfl rfl

/-! ## C2 — detector score bounds -/

theorem mixer_results_bounds (g : Graph) (t : Int) (a : String) (r : String × ℚ)
    (hr : r ∈ (find_mixer_activity g t a).1) : 0 ≤ r.2 ∧ r.2 ≤ 100 := by
  unfold find_mixer_activity at hr
  cases hf : g.findAddr a with
  | none => rw [hf] at hr; simp at hr
  | some node =>
    rw [hf] at hr
    dsimp only at hr
    split_ifs at hr <;> simp_all <;> norm_num [hr]

theorem circ_results_bounds (g : Graph) (t : Int) (a : String) (r : String × ℚ)
    (hr : r ∈ (find_circular_txns g t a).1) : 0 ≤ r.2 ∧ r.2 ≤ 100 := by
  unfold find_circular_txns at hr
  cases hf : g.findAddr a with
  | none => rw [hf] at hr; simp at hr
  | some node =>
    rw [hf] at hr
    dsimp only at hr
    split_ifs at hr <;> simp_all <;> norm_num [hr]

theorem velocity_results_bounds (g : Graph) (s t : Int) (a : String) (r : String × ℚ)
    (hr : r ∈ (detect_velocity_alert g s t a).1) : 0 ≤ r.2 ∧ r.2 ≤ 100 := by
  unfold detect_velocity_alert at hr
  cases hf : g.findAddr a with
  | none => rw [hf] at hr; simp at hr
  | some node =>
    rw [hf] at hr
    dsimp only at hr
    split_ifs at hr <;> simp_all <;> norm_num [hr]

theorem dormant_results_bounds (g : Graph) (s t : Int) (a : String) (r : String × ℚ)
    (hr : r ∈ (detect_dormant_reactivation g s t a).1) : 0 ≤ r.2 ∧ r.2 ≤ 100 := by
  unfold detect_dormant_reactivation at hr
  cases hf : g.findAddr a with
  | none => rw [hf] at hr; simp at hr
  | some node =>
    rw [hf] at hr
    dsimp only at hr
    cases hfs : node.first_seen with
    | none => rw [hfs] at hr; simp at hr
    | some fs =>
      cases hls : node.last_seen with
      | none => rw [hfs, hls] at hr; simp at hr
      | some ls =>
        rw [hfs, hls] at hr
        dsimp only at hr
        split_ifs at hr <;> simp_all <;> norm_num [hr]

theorem round_results_bounds (g : Graph) (s t : Int) (a : String) (r : String × ℚ)
    (hr : r ∈ (detect_round_amounts g s t a).1) : 0 ≤ r.2 ∧ r.2 ≤ 100 := by
  unfold detect_round_amounts at hr
  cases hf : g.findAddr a with
  | none => rw [hf] at hr; simp at hr
  | some node =>
    rw [hf] at hr
    dsimp only at hr
    split_ifs at hr <;> simp_all <;> norm_num [hr]

theorem timing_results_bounds (g : Graph) (s t : Int) (a : String) (r : String × ℚ)
    (hr : r ∈ (detect_timing_patterns g s t a).1) : 0 ≤ r.2 ∧ r.2 ≤ 100 := by
  unfold detect_timing_patterns at hr
  cases hf : g.findAddr a with
  | none => rw [hf] at hr; simp at hr
  | some node =>
    rw [hf] at hr
    dsimp only at hr
    split_ifs at hr <;> simp_all <;> norm_num [hr]

theorem wash_results_bounds (g : Graph) (s t : Int) (a : String) (r : String × ℚ)
    (hr : r ∈ (detect_wash_trading g s t a).1) : 0 ≤ r.2 ∧ r.2 ≤ 100 := by
  unfold detect_wash_trading at hr
  cases hf : g.findAddr a with
  | none => rw [hf] at hr; simp at hr
  | some node =>
    rw [hf] at hr
    dsimp only at hr
    split_ifs at hr <;> simp_all <;> norm_num [hr]

theorem hopDist3_cases (g : Graph) (a b : String) (d : Nat)
    (h : hopDist3 g a b = some d) : d = 1 ∨ d = 2 ∨ d = 3 := by
  unfold hopDist3 at h
  dsimp only at h
  split_ifs at h <;> simp_all

theorem taint_results_bounds (g : Graph) (t : Int) (a : String) (r : String × ℚ)
    (hr : r ∈ (run_taint_analysis g t a).1) : 0 ≤ r.2 ∧ r.2 ≤ 100 := by
  unfold run_taint_analysis at hr
  cases hf : g.findAddr a with
  | none => rw [hf] at hr; simp at hr
  | some node =>
    rw [hf] at hr
    dsimp only at hr
    unfold taintRows at hr
    rcases List.mem_filterMap.mp hr with ⟨b, _, hb⟩
    split_ifs at hb
    rcases hd : hopDist3 g a b with _ | d
    · rw [hd] at hb; simp at hb
    · rw [hd] at hb
      simp only [Option.some.injEq] at hb
      rcases hopDist3_cases g a b d hd with rfl | rfl | rfl <;>
        rw [← hb] <;> norm_num

theorem structuring_results_shape (g : Graph) (s t : Int) (a : String) (r : String × ℚ)
    (hr : r ∈ (detect_structuring g s t a).1) :
    5 ≤ (structuringTxns g s a).length ∧ 20 ≤ r.2 ∧
    ((structuringTxns g s a).length ≤ 22 → r.2 ≤ 100) := by
  unfold detect_structuring at hr
  cases hf : g.findAddr a with
  | none => rw [hf] at hr; simp at hr
  | some node =>
    rw [hf] at hr
    dsimp only at hr
    split_ifs at hr with h5 hb
    · simp only [List.mem_singleton] at hr
      subst hr
      have h5q : (5 : ℚ) ≤ ((structuringTxns g s a).length : ℚ) := by exact_mod_cast h5
      refine ⟨h5, by dsimp only; linarith, ?_⟩
      intro h22
      have h22q : ((structuringTxns g s a).length : ℚ) ≤ 22 := by exact_mod_cast h22
      dsimp only
      linarith
    · simp only [List.mem_singleton] at hr
      subst hr
      have h5q : (5 : ℚ) ≤ ((structuringTxns g s a).length : ℚ) := by exact_mod_cast h5
      refine ⟨h5, by dsimp only; linarith, ?_⟩
      intro h22
      have h22q : ((structuringTxns g s a).length : ℚ) ≤ 22 := by exact_mod_cast h22
      dsimp only
      linarith
    · simp at hr

theorem run_all_analytics_empty_history (g : Graph) (s t : Int) (a : String)
    (htx : g.txns = []) (htr : g.transfers = []) :
    (run_all_analytics g s t a).1 = emptyAnalytics ∧ (run_all_analytics g s t a).2 = g := by
  have hstep : ∀ l, stepSet g l = [] := by
    intro l
    simp [stepSet, undirectedNbrs, htr]
  have d1 : detect_structuring g s t a = ([], g) := by
    unfold detect_structuring
    cases hf : g.findAddr a <;> simp [structuringTxns, htx]
  have d2 : detect_peel_chains g t a = ([], g) := by
    unfold detect_peel_chains
    cases hf : g.findAddr a <;> simp [peelPairs, htr]
  have d3 : find_mixer_activity g t a = ([], g) := by
    unfold find_mixer_activity
    cases hf : g.findAddr a <;> simp [fanin, fanout, htr]
  have d4 : run_taint_analysis g t a = ([], g) := by
    unfold run_taint_analysis
    have htn : taintRows g a = [] := by
      unfold taintRows
      rw [List.filterMap_eq_nil_iff]
      intro b _
      by_cases hba : b == a
      · simp [hba]
      · simp only [hba, Bool.false_eq_true, if_false]
        simp [hopDist3, hstep]
    cases hf : g.findAddr a <;> simp [htn, createAlerts]
  have d5 : find_circular_txns g t a = ([], g) := by
    unfold find_circular_txns
    have hcy : cyclesCount g a = 0 := by
      simp [cyclesCount, countCyclePaths, htr]
    cases hf : g.findAddr a <;> simp [hcy]
  have d6 : detect_velocity_alert g s t a = ([], g) := by
    unfold detect_velocity_alert
    cases hf : g.findAddr a <;> simp [velocityTxns, htx]
  have d7 : detect_dormant_reactivation g s t a = ([], g) := by
    unfold detect_dormant_reactivation
    cases hf : g.findAddr a with
    | none => rfl
    | some node =>
      cases hfs : node.first_seen with
      | none => simp [hfs]
      | some fs =>
        cases hls : node.last_seen with
        | none => simp [hfs, hls]
        | some ls => simp [hfs, hls, dormantTxns, htx]
  have d8 : detect_round_amounts g s t a = ([], g) := by
    unfold detect_round_amounts
    cases hf : g.findAddr a <;> simp [roundTxns, htx]
  have d9 : detect_timing_patterns g s t a = ([], g) := by
    unfold detect_timing_patterns
    cases hf : g.findAddr a <;> simp [timingStamps, htx]
  have d10 : detect_wash_trading g s t a = ([], g) := by
    unfold detect_wash_trading
    cases hf : g.findAddr a <;> simp [washPairs, htr]
  unfold run_all_analytics
  rw [d1]
  dsimp only
  rw [d2]
  dsimp only
  rw [d3]
  dsimp only
  rw [d4]
  dsimp only
  rw [d5]
  dsimp only
  rw [d6]
  dsimp only
  rw [d7]
  dsimp only
  rw [d8]
  dsimp only
  rw [d9]
  dsimp only
  rw [d10]
  exact ⟨rfl, rfl⟩

/-- C2 (amended): every alert emitted by the eight tiered detectors carries
a score in [0,100]; an empty transaction history yields no alert from any
detector and leaves the store untouched (no exception: the functions are
total); the Structuring score is `(count/5)*20` plus a 10-point bonus when
the small-deposit total exceeds 1.0 — at least 20, and within [0,100] only
while the qualifying deposit count stays ≤ 22. -/
theorem c2_detector_score_bounds (g : Graph) (s t : Int) (a : String) :
    (g.txns = [] → g.transfers = [] →
      (run_all_analytics g s t a).1 = emptyAnalytics ∧ (run_all_analytics g s t a).2 = g) ∧
    (∀ r ∈ (detect_structuring g s t a).1,
      5 ≤ (structuringTxns g s a).length ∧ 20 ≤ r.2 ∧
      ((structuringTxns g s a).length ≤ 22 → r.2 ≤ 100)) ∧
    (∀ r ∈ (find_mixer_activity g t a).1, 0 ≤ r.2 ∧ r.2 ≤ 100) ∧
    (∀ r ∈ (run_taint_analysis g t a).1, 0 ≤ r.2 ∧ r.2 ≤ 100) ∧
    (∀ r ∈ (find_circular_txns g t a).1, 0 ≤ r.2 ∧ r.2 ≤ 100) ∧
    (∀ r ∈ (detect_velocity_alert g s t a).1, 0 ≤ r.2 ∧ r.2 ≤ 100) ∧
    (∀ r ∈ (detect_dormant_reactivation g s t a).1, 0 ≤ r.2 ∧ r.2 ≤ 100) ∧
    (∀ r ∈ (detect_round_amounts g s t a).1, 0 ≤ r.2 ∧ r.2 ≤ 100) ∧
    (∀ r ∈ (detect_timing_patterns g s t a).1, 0 ≤ r.2 ∧ r.2 ≤ 100) ∧
    (∀ r ∈ (detect_wash_trading g s t a).1, 0 ≤ r.2 ∧ r.2 ≤ 100) :=
  ⟨fun htx htr => run_all_analytics_empty_history g s t a htx htr,
   fun r hr => structuring_results_shape g s t a r hr,
   fun r hr => mixer_results_bounds g t a r hr,
   fun r hr => taint_results_bounds g t a r hr,
   fun r hr => circ_results_bounds g t a r hr,
   fun r hr => velocity_results_bounds g s t a r hr,
   fun r hr => dormant_results_bounds g s t a r hr,
   fun r hr => round_results_bounds g s t a r hr,
   fun r hr => timing_results_bounds g s t a r hr,
   fun r hr => wash_results_bounds g s t a r hr⟩

/-- Witness for C2 at the empty store. -/
theorem c2_detector_score_bounds_witness :
    (run_all_analytics ⟨[], [], [], []⟩ 0 0 "a").1 = emptyAnalytics ∧
    (run_all_analytics ⟨[], [], [], []⟩ 0 0 "a").2 = (⟨[], [], [], []⟩ : Graph) :=
  (c2_detector_score_bounds ⟨[], [], [], []⟩ 0 0 "a").1 rfl rfl

/-- 23 small same-day deposits into address `a`. -/
def G23 : Graph :=
  { addrs := [{ address := "a" }]
    txns := [⟨"h0", "d", "a", 1/10, 0⟩,
             ⟨"h1", "d", "a", 1/10, 0⟩,
             ⟨"h2", "d", "a", 1/10, 0⟩,
             ⟨"h3", "d", "a", 1/10, 0⟩,
             ⟨"h4", "d", "a", 1/10, 0⟩,
             ⟨"h5", "d", "a", 1/10, 0⟩,
             ⟨"h6", "d", "a", 1/10, 0⟩,
             ⟨"h7", "d", "a", 1/10, 0⟩,
             ⟨"h8", "d", "a", 1/10, 0⟩,
             ⟨"h9", "d", "a", 1/10, 0⟩,
             ⟨"h10", "d", "a", 1/10, 0⟩,
             ⟨"h11", "d", "a", 1/10, 0⟩,
             ⟨"h12", "d", "a", 1/10, 0⟩,
             ⟨"h13", "d", "a", 1/10, 0⟩,
             ⟨"h14", "d", "a", 1/10, 0⟩,
             ⟨"h15", "d", "a", 1/10, 0⟩,
             ⟨"h16", "d", "a", 1/10, 0⟩,
             ⟨"h17", "d", "a", 1/10, 0⟩,
             ⟨"h18", "d", "a", 1/10, 0⟩,
             ⟨"h19", "d", "a", 1/10, 0⟩,
             ⟨"h20", "d", "a", 1/10, 0⟩,
             ⟨"h21", "d", "a", 1/10, 0⟩,
             ⟨"h22", "d", "a", 1/10, 0⟩]
    transfers := []
    alerts := [] }

/-- Counterexample to C2 as stated: with 23 qualifying deposits totalling
2.3, `detect_structuring` emits an alert whose score is 102 ∉ [0,100]. -/
theorem c2_counterexample :
    (detect_structuring G23 (3 * 24 * 3600) 1 "a").1 = [("a", 102)] ∧
    ¬((102 : ℚ) ≤ 100) := by
  constructor
  · norm_num [detect_structuring, structuringTxns, Graph.findAddr, List.find?, G23,
      List.filter]
  · norm_num

/-! ## C8 — circularity tiers and the A→B→C→A scenario -/

/-- The A→B→C→A scenario store: three equal-value transfers (and their raw
transactions). -/
def Gcyc : Graph :=
  { addrs := [{ address := "a" }, { address := "b" }, { address := "c" }]
    txns := [⟨"t1", "a", "b", 1, 0⟩, ⟨"t2", "b", "c", 1, 0⟩, ⟨"t3", "c", "a", 1, 0⟩]
    transfers := [⟨"a", "b", 1, 1, 0⟩, ⟨"b", "c", 1, 1, 0⟩, ⟨"c", "a", 1, 1, 0⟩]
    alerts := [] }

/-- C8: the Circularity detector scores by cycle-count tiers (1 → 20,
2 → 35, ≥3 → 50), and on the A→B→C→A equal-value scenario it finds exactly
one cycle and emits a CIRCULARITY alert with `cycles = 1` and score 20. -/
theorem c8_circularity (g : Graph) (t : Int) (a : String) (node : AddressNode)
    (hf : g.findAddr a = some node) :
    (cyclesCount g a = 1 → (find_circular_txns g t a).1 = [(a, 20)]) ∧
    (cyclesCount g a = 2 → (find_circular_txns g t a).1 = [(a, 35)]) ∧
    (3 ≤ cyclesCount g a → (find_circular_txns g t a).1 = [(a, 50)]) ∧
    cyclesCount Gcyc "a" = 1 ∧
    (find_circular_txns Gcyc 5 "a").1 = [("a", 20)] ∧
    (find_circular_txns Gcyc 5 "a").2.alerts =
      [⟨⟨"CIRCULARITY", "a", 5⟩, "CIRCULARITY", 20, [("cycles", 1)], 5, "a"⟩] := by
  have h1 : cyclesCount Gcyc "a" = 1 := by
    simp [cyclesCount, Gcyc, countCyclePaths]
  refine ⟨?_, ?_, ?_, h1, ?_, ?_⟩
  · intro hc
    unfold find_circular_txns
    rw [hf]
    dsimp only
    rw [hc]
    norm_num
  · intro hc
    unfold find_circular_txns
    rw [hf]
    dsimp only
    rw [hc]
    norm_num
  · intro hc
    unfold find_circular_txns
    rw [hf]
    dsimp only
    rw [if_neg (by omega), if_pos hc]
  · unfold find_circular_txns
    rw [show Gcyc.findAddr "a" = some { address := "a" } from rfl]
    dsimp only
    rw [h1]
    norm_num
  · unfold find_circular_txns
    rw [show Gcyc.findAddr "a" = some { address := "a" } from rfl]
    dsimp only
    rw [h1]
    norm_num [createAlerts, _create_alert, Graph.findAddr, Graph.setAddr, Gcyc]

/-- Witness for C8 at the scenario store. -/
theorem c8_circularity_witness :
    (find_circular_txns Gcyc 5 "a").1 = [("a", 20)] :=
  (c8_circularity Gcyc 5 "a" { address := "a" } rfl).1
    (by simp [cyclesCount, Gcyc, countCyclePaths])

/-! ## C3 — expansion gating and depth bound -/

/-- Invariant of the expansion forest under parent depth `d`: every node
records depth `d + 1 ≤ maxd`, carries a `sub_expansions` key only when its
(alert-based) risk score reached the trigger, and its subtrees satisfy the
same discipline. -/
def ForestInv (trigger : ℚ) (maxd : Nat) : Nat → ExpForest → Prop
  | _, .nil => True
  | d, .node _ _ dep an hs subs rest =>
      dep = d + 1 ∧ dep ≤ maxd ∧ (hs = true → trigger ≤ an.risk_score) ∧
      ForestInv trigger maxd dep subs ∧ ForestInv trigger maxd d rest

theorem expandLoop_forestInv (env : AnalysisEnv) (trigger : ℚ) (maxd : Nat)
    (recurse : String → ExpState → ExpForest × ExpState) (parent : String) (depth : Nat)
    (hd : depth + 1 ≤ maxd)
    (hrec : ∀ a s, ForestInv trigger maxd (depth + 1) (recurse a s).1) :
    ∀ conns st, ForestInv trigger maxd depth
      (expandLoop env trigger recurse parent depth conns st).1 := by
  intro conns
  induction conns with
  | nil =>
    intro st
    unfold expandLoop
    exact trivial
  | cons conn rest ih =>
    intro st
    unfold expandLoop
    by_cases hc : st.expanded_addresses.contains conn
    · rw [if_pos hc]
      exact ih st
    · rw [if_neg hc]
      rcases hfa : _full_analysis env st.graph conn with ⟨analysis, g2⟩
      simp only [hfa]
      cases analysis with
      | none => exact ih _
      | some an =>
        dsimp only
        by_cases hr : trigger ≤ an.risk_score
        · rw [if_pos hr]
          set st2 : ExpState :=
            { graph := g2, expanded_addresses := conn :: st.expanded_addresses,
              expansion_map := st.expansion_map,
              expansions_triggered := st.expansions_triggered,
              total_addresses_analyzed := st.total_addresses_analyzed + 1,
              high_risk_found := st.high_risk_found + 1 } with hst2
          rcases hrc : recurse conn st2 with ⟨subs, st3⟩
          rcases hlp : expandLoop env trigger recurse parent depth rest st3 with ⟨rst, st4⟩
          simp only [hrc, hlp]
          refine ⟨rfl, hd, fun _ => hr, ?_, ?_⟩
          · have h5 := hrec conn st2
            rw [hrc] at h5
            exact h5
          · have h5 := ih st3
            rw [hlp] at h5
            exact h5
        · rw [if_neg hr]
          set st2 : ExpState :=
            { graph := g2, expanded_addresses := conn :: st.expanded_addresses,
              expansion_map := st.expansion_map,
              expansions_triggered := st.expansions_triggered,
              total_addresses_analyzed := st.total_addresses_analyzed + 1,
              high_risk_found := st.high_risk_found } with hst2
          rcases hlp : expandLoop env trigger recurse parent depth rest st2 with ⟨rst, st4⟩
          simp only [hlp]
          refine ⟨rfl, hd, by simp, trivial, ?_⟩
          have h5 := ih st2
          rw [hlp] at h5
          exact h5

theorem expandFromAux_forestInv (cfg : ExpCfg) (env : AnalysisEnv) :
    ∀ (r : Nat) (address : String) (depth : Nat) (st : ExpState),
      depth + r ≤ cfg.expansion_depth →
      ForestInv cfg.trigger_risk_score cfg.expansion_depth depth
        (expandFromAux cfg env r address depth st).1 := by
  intro r
  induction r with
  | zero =>
    intro address depth st h
    unfold expandFromAux
    exact trivial
  | succ r ih =>
    intro address depth st h
    unfold expandFromAux
    dsimp only
    apply expandLoop_forestInv
    · omega
    · intro a s
      exact ih a (depth + 1) s (by omega)

/-- C3 (amended): auto-expansion is gated by the simplified alert-based
`_calculate_risk_score` (not the §4.2 full Risk Scorer): whenever any
expansion was recorded, the seed's alert-based score reached
`trigger_risk_score`; inside the forest a node's `sub_expansions` key is
set only when that node's alert-based score reached the trigger; and every
recorded node sits at its parent's depth + 1, never exceeding
`expansion_depth`. -/
theorem c3_expansion_gating (cfg : ExpCfg) (env : AnalysisEnv) (address : String)
    (g : Graph) :
    ForestInv cfg.trigger_risk_score cfg.expansion_depth 0
      (analyze_with_expansion cfg env address g).expansions ∧
    ((analyze_with_expansion cfg env address g).finalState.expansion_map ≠ [] →
      ∃ an, (analyze_with_expansion cfg env address g).initial_analysis = some an ∧
        cfg.trigger_risk_score ≤ an.risk_score) := by
  unfold analyze_with_expansion
  rcases hfa : _full_analysis env g address with ⟨ana, g1⟩
  simp only [hfa]
  cases ana with
  | none =>
    dsimp only
    exact ⟨trivial, fun habs => absurd rfl habs⟩
  | some an =>
    dsimp only
    by_cases hr : cfg.trigger_risk_score ≤ an.risk_score
    · rw [if_pos hr]
      rcases hex : _expand_from_address cfg env address 0
        { graph := g1, expanded_addresses := [address.toLower], expansion_map := [],
          expansions_triggered := 0, total_addresses_analyzed := 0,
          high_risk_found := 0 } with ⟨exps, st3⟩
      simp only [hex]
      constructor
      · have h5 := expandFromAux_forestInv cfg env (cfg.expansion_depth - 0) address 0
          { graph := g1, expanded_addresses := [address.toLower], expansion_map := [],
            expansions_triggered := 0, total_addresses_analyzed := 0,
            high_risk_found := 0 } (by omega)
        rw [show expandFromAux cfg env (cfg.expansion_depth - 0) address 0
            { graph := g1, expanded_addresses := [address.toLower], expansion_map := [],
              expansions_triggered := 0, total_addresses_analyzed := 0,
              high_risk_found := 0 } = (exps, st3) from hex] at h5
        exact h5
      · intro _
        exact ⟨an, rfl, hr⟩
    · rw [if_neg hr]
      dsimp only
      exact ⟨trivial, fun habs => absurd rfl habs⟩

/-- Default expansion configuration (trigger 70, depth 2, min 0.5 ETH). -/
def cfgX : ExpCfg := {}

/-- Environment whose ingestion is a no-op reporting one transaction, with
the clock at 3 days (so the detector windows start at time 0). -/
def envX : AnalysisEnv := ⟨fun g _ => (g, 1), 3 * 24 * 3600, 1⟩

/-- Seed `a` with five small same-day deposits, ten distinct small-value
depositors, and a sanctioned address `x` two undirected hops away — enough
for Structuring (15) + Mixer (30) + Taint (25) to reach the alert-based
trigger 70, while the §4.2 full risk score stays at 30 (no structural
features, three alerts). -/
def Gx : Graph :=
  { addrs := [{ address := "a" }, { address := "x" }]
    txns := [⟨"q1", "d0", "a", 1/10, 0⟩, ⟨"q2", "d1", "a", 1/10, 0⟩,
             ⟨"q3", "d2", "a", 1/10, 0⟩, ⟨"q4", "d3", "a", 1/10, 0⟩,
             ⟨"q5", "d4", "a", 1/10, 0⟩]
    transfers := [⟨"d0", "a", 1, 1/10, 0⟩, ⟨"d1", "a", 1, 1/10, 0⟩,
                  ⟨"d2", "a", 1, 1/10, 0⟩, ⟨"d3", "a", 1, 1/10, 0⟩,
                  ⟨"d4", "a", 1, 1/10, 0⟩, ⟨"d5", "a", 1, 1/10, 0⟩,
                  ⟨"d6", "a", 1, 1/10, 0⟩, ⟨"d7", "a", 1, 1/10, 0⟩,
                  ⟨"d8", "a", 1, 1/10, 0⟩, ⟨"d9", "a", 1, 1/10, 0⟩,
                  ⟨"x", "d0", 1, 1/10, 0⟩]
    alerts := [⟨⟨"SANCTION", "x", 0⟩, "SANCTION", 60, [], 0, "x"⟩] }


/-- The `a` node of `Gx` after its first alert is attached. -/
def aFlagged : AddressNode := { address := "a", has_alert := true, last_alert_ts := some 1 }

/-- `Gx` after the STRUCTURING alert. -/
def GxA : Graph :=
  { addrs := [aFlagged, { address := "x" }]
    txns := Gx.txns
    transfers := Gx.transfers
    alerts := [⟨⟨"SANCTION", "x", 0⟩, "SANCTION", 60, [], 0, "x"⟩,
               ⟨⟨"STRUCTURING", "a", 1⟩, "STRUCTURING", 20, [("window_days", 3)], 1, "a"⟩] }

/-- `Gx` after the STRUCTURING and MIXER_PATTERN alerts. -/
def GxB : Graph :=
  { GxA with alerts := GxA.alerts ++
      [⟨⟨"MIXER_PATTERN", "a", 1⟩, "MIXER_PATTERN", 40, [("fanin", 10), ("fanout", 0)], 1, "a"⟩] }

/-- `Gx` after the full pipeline run (STRUCTURING, MIXER_PATTERN, TAINT). -/
def GxC : Graph :=
  { GxB with alerts := GxB.alerts ++ [⟨⟨"TAINT", "a", 1⟩, "TAINT", 40, [("max_hops", 3)], 1, "a"⟩] }

/-- The pipeline output on `Gx`. -/
def GxOut : AnalyticsOut :=
  ⟨[("a", 20)], [], [("a", 40)], [("a", 40)], [], [], [], [], [], []⟩


theorem create_alert_append (g : Graph) (t : Int) (addr ty : String) (sc : ℚ)
    (d : List (String × ℚ))
    (hany : g.alerts.any (fun al => al.id == (⟨ty, addr, t⟩ : AlertId)) = false)
    (hfind : (g.findAddr addr).isSome = true) :
    _create_alert g t addr ty sc d =
      ({ g with alerts := g.alerts ++ [⟨⟨ty, addr, t⟩, ty, sc, d, t, addr⟩] } : Graph).setAddr
        addr (fun n => { n with last_alert_ts := some t, has_alert := true }) := by
  unfold _create_alert
  simp only [hany, Bool.false_eq_true, if_false]
  have : (({ g with alerts :=
      g.alerts ++ [⟨⟨ty, addr, t⟩, ty, sc, d, t, addr⟩] } : Graph).findAddr addr).isSome =
      true := hfind
  rw [if_pos this]

theorem gx_structuring : detect_structuring Gx (3 * 24 * 3600) 1 "a" = ([("a", 20)], GxA) := by
  have hts : structuringTxns Gx (3 * 24 * 3600) "a" = Gx.txns := by
    norm_num [structuringTxns, Gx]
  unfold detect_structuring
  rw [show Gx.findAddr "a" = some { address := "a" } from rfl]
  dsimp only
  rw [hts]
  rw [show (Gx.txns.length : ℚ) / 5 * 20 +
      (if 1 < ((Gx.txns.map (fun t => t.value)).sum : ℚ) then (10 : ℚ) else 0) = 20 by
    norm_num [Gx]]
  rw [if_pos (by norm_num [Gx])]
  unfold createAlerts
  dsimp only [List.foldl]
  rw [create_alert_append Gx 1 "a" "STRUCTURING" 20 [("window_days", 3)] (by decide) (by decide)]
  refine congrArg _ ?_
  show ({ Gx with alerts := _ } : Graph).setAddr "a" _ = GxA
  unfold Graph.setAddr
  norm_num [Gx, GxA, aFlagged]
  all_goals decide

theorem gx_peel : detect_peel_chains GxA 1 "a" = ([], GxA) := by
  unfold detect_peel_chains
  rw [show GxA.findAddr "a" = some aFlagged from rfl]
  dsimp only
  rw [if_pos (show peelPairs GxA "a" = [] from by decide)]

theorem gx_mixer : find_mixer_activity GxA 1 "a" = ([("a", 40)], GxB) := by
  unfold find_mixer_activity
  rw [show GxA.findAddr "a" = some aFlagged from rfl]
  dsimp only
  rw [show fanin GxA "a" = 10 from by decide, show fanout GxA "a" = 0 from by decide]
  norm_num
  unfold createAlerts
  dsimp only [List.foldl]
  rw [create_alert_append GxA 1 "a" "MIXER_PATTERN" 40 [("fanin", 10), ("fanout", 0)]
    (by decide) (by decide)]
  unfold Graph.setAddr
  norm_num [GxA, GxB, aFlagged]
  all_goals decide

theorem gx_taint : run_taint_analysis GxB 1 "a" = ([("a", 40)], GxC) := by
  have hbads : taintBads GxB = ["x"] := by
    norm_num [taintBads, GxB, GxA]
  have hrows : taintRows GxB "a" = [("a", 40)] := by
    unfold taintRows
    rw [hbads]
    simp only [List.filterMap_cons, List.filterMap_nil]
    rw [show (("x" == "a") : Bool) = false from by decide]
    simp only [Bool.false_eq_true, if_false]
    rw [show hopDist3 GxB "a" "x" = some 2 from by decide]
    norm_num
  unfold run_taint_analysis
  rw [show GxB.findAddr "a" = some aFlagged from rfl]
  dsimp only
  rw [hrows]
  unfold createAlerts
  dsimp only [List.map, List.foldl]
  rw [create_alert_append GxB 1 "a" "TAINT" 40 [("max_hops", 3)] (by decide) (by decide)]
  refine congrArg _ ?_
  unfold Graph.setAddr
  norm_num [GxB, GxA, GxC, aFlagged]
  all_goals decide

theorem gx_circ : find_circular_txns GxC 1 "a" = ([], GxC) := by
  unfold find_circular_txns
  rw [show GxC.findAddr "a" = some aFlagged from rfl]
  dsimp only
  rw [if_pos (show cyclesCount GxC "a" = 0 from by decide)]

theorem gx_velocity : detect_velocity_alert GxC (3 * 24 * 3600) 1 "a" = ([], GxC) := by
  unfold detect_velocity_alert
  rw [show GxC.findAddr "a" = some aFlagged from rfl]
  dsimp only
  rw [show velocityTxns GxC (3 * 24 * 3600) "a" = [] from by decide]
  norm_num

theorem gx_dormant : detect_dormant_reactivation GxC (3 * 24 * 3600) 1 "a" = ([], GxC) := by
  unfold detect_dormant_reactivation
  rw [show GxC.findAddr "a" = some aFlagged from rfl]
  rfl

theorem gx_round : detect_round_amounts GxC (3 * 24 * 3600) 1 "a" = ([], GxC) := by
  unfold detect_round_amounts
  rw [show GxC.findAddr "a" = some aFlagged from rfl]
  dsimp only
  rw [show roundTxns GxC (3 * 24 * 3600) "a" = [] from by decide]
  norm_num

theorem gx_timing : detect_timing_patterns GxC (3 * 24 * 3600) 1 "a" = ([], GxC) := by
  unfold detect_timing_patterns
  rw [show GxC.findAddr "a" = some aFlagged from rfl]
  dsimp only
  rw [show timingStamps GxC (3 * 24 * 3600) "a" = [] from by decide]
  norm_num

theorem gx_wash : detect_wash_trading GxC (3 * 24 * 3600) 1 "a" = ([], GxC) := by
  unfold detect_wash_trading
  rw [show GxC.findAddr "a" = some aFlagged from rfl]
  dsimp only
  rw [if_pos (show washPairs GxC (3 * 24 * 3600 - 90 * 24 * 3600) "a" = [] from by decide)]

theorem gx_pipeline : run_all_analytics Gx (3 * 24 * 3600) 1 "a" = (GxOut, GxC) := by
  unfold run_all_analytics
  rw [gx_structuring]
  dsimp only
  rw [gx_peel]
  dsimp only
  rw [gx_mixer]
  dsimp only
  rw [gx_taint]
  dsimp only
  rw [gx_circ]
  dsimp only
  rw [gx_velocity]
  dsimp only
  rw [gx_dormant]
  dsimp only
  rw [gx_round]
  dsimp only
  rw [gx_timing]
  dsimp only
  rw [gx_wash]
  rfl

theorem gx_full_analysis :
    _full_analysis envX Gx "a" = (some ⟨"a", 70, 3, GxOut, 1⟩, GxC) := by
  unfold _full_analysis
  rw [show envX.ingest Gx "a" = (Gx, 1) from rfl]
  dsimp only
  rw [if_neg (by norm_num)]
  rw [show envX.nowSec = 3 * 24 * 3600 from rfl, show envX.nowMs = 1 from rfl, gx_pipeline]
  dsimp only
  rw [show alertTotal GxOut = 3 from by decide,
    show expansionCalcRiskScore GxOut = 70 from by norm_num [expansionCalcRiskScore, GxOut]]

theorem gx_expansion :
    (analyze_with_expansion cfgX envX "a" Gx).finalState.expansion_map = [("a", [])] ∧
    (analyze_with_expansion cfgX envX "a" Gx).finalState.graph = GxC ∧
    (analyze_with_expansion cfgX envX "a" Gx).initial_analysis =
      some ⟨"a", 70, 3, GxOut, 1⟩ := by
  unfold analyze_with_expansion
  dsimp only
  rw [gx_full_analysis]
  dsimp only
  rw [if_pos (by norm_num [cfgX])]
  unfold _expand_from_address
  rw [show cfgX.expansion_depth - 0 = 2 from rfl]
  unfold expandFromAux
  rw [show expansionConnected cfgX GxC "a" = [] from by norm_num [expansionConnected,
    cfgX, GxC, GxB, GxA, Gx]]
  unfold expandLoop
  exact ⟨rfl, rfl, rfl⟩
/-- Counterexample to C3 as stated: on `Gx` the expansion is triggered
(the expansion map is non-empty) although the §4.2 full Risk Scorer output
for the seed on the post-pipeline store is 30 < trigger 70 — the gate uses
the alert-based `_calculate_risk_score`, not the full §4.2 score. -/
theorem c3_counterexample :
    (analyze_with_expansion cfgX envX "a" Gx).finalState.expansion_map ≠ [] ∧
    (get_address_risk_score (analyze_with_expansion cfgX envX "a" Gx).finalState.graph
        "a").1 < cfgX.trigger_risk_score := by
  constructor
  · rw [gx_expansion.1]
    simp
  · rw [gx_expansion.2.1]
    unfold get_address_risk_score
    rw [show GxC.findAddr "a" = some aFlagged from rfl]
    dsimp only
    rw [show alertCount GxC "a" = 3 from by decide]
    norm_num [aFlagged, riskScoreOf, _normalize, cfgX]

/-- Witness for the amended C3 at the concrete `Gx` run: an expansion was
recorded, so the seed's alert-based score reached the trigger. -/
theorem c3_expansion_gating_witness :
    ∃ an, (analyze_with_expansion cfgX envX "a" Gx).initial_analysis = some an ∧
      cfgX.trigger_risk_score ≤ an.risk_score :=
  (c3_expansion_gating cfgX envX "a" Gx).2 (by rw [gx_expansion.1]; simp)

/-! ## C1 — re-running the pipeline on an unchanged snapshot -/

/-- One store step at alert-clock `t`: alerts with another timestamp are
preserved unchanged, and anything new carries timestamp `t`. -/
def AlertsStep (t : Int) (g g' : Graph) : Prop :=
  (∀ al ∈ g.alerts, al.id.ms ≠ t → al ∈ g'.alerts) ∧
  (∀ al ∈ g'.alerts, al ∈ g.alerts ∨ al.id.ms = t)

theorem alertsStep_refl (t : Int) (g : Graph) : AlertsStep t g g :=
  ⟨fun _ h _ => h, fun _ h => Or.inl h⟩

theorem alertsStep_trans {t : Int} {g g' g'' : Graph}
    (h1 : AlertsStep t g g') (h2 : AlertsStep t g' g'') : AlertsStep t g g'' := by
  refine ⟨fun al h hm => h2.1 al (h1.1 al h hm) hm, fun al h => ?_⟩
  rcases h2.2 al h with h' | hm
  · exact h1.2 al h'
  · exact Or.inr hm

theorem create_alert_alerts (g : Graph) (t : Int) (addr ty : String) (sc : ℚ)
    (d : List (String × ℚ)) :
    (_create_alert g t addr ty sc d).alerts =
      if g.alerts.any (fun al => al.id == (⟨ty, addr, t⟩ : AlertId)) then
        g.alerts.map (fun al => if al.id = ⟨ty, addr, t⟩ then
          { al with typ := ty, score := sc, details := d } else al)
      else g.alerts ++ [⟨⟨ty, addr, t⟩, ty, sc, d, t, addr⟩] := by
  unfold _create_alert
  by_cases hany : g.alerts.any (fun al => al.id == (⟨ty, addr, t⟩ : AlertId))
  · simp only [hany, if_true]
    split <;> rfl
  · simp only [hany, Bool.false_eq_true, if_false]
    split <;> rfl

theorem alertsStep_create (t : Int) (g : Graph) (addr ty : String) (sc : ℚ)
    (d : List (String × ℚ)) :
    AlertsStep t g (_create_alert g t addr ty sc d) := by
  constructor
  · intro al hmem hms
    rw [create_alert_alerts]
    split
    · have heq : (fun al' : Alert => if al'.id = (⟨ty, addr, t⟩ : AlertId) then
          { al' with typ := ty, score := sc, details := d } else al') al = al := by
        dsimp only
        rw [if_neg]
        intro h
        exact hms (by rw [h])
      exact heq ▸ List.mem_map_of_mem _ hmem
    · exact List.mem_append_left _ hmem
  · intro al hmem
    rw [create_alert_alerts] at hmem
    rcases Decidable.em
      (g.alerts.any (fun al => al.id == (⟨ty, addr, t⟩ : AlertId)) = true) with hany | hany
    · rw [if_pos hany] at hmem
      rcases List.mem_map.mp hmem with ⟨a0, ha0, heq⟩
      by_cases h0 : a0.id = (⟨ty, addr, t⟩ : AlertId)
      · right
        rw [← heq, if_pos h0]
        show a0.id.ms = t
        rw [h0]
      · left
        rw [← heq, if_neg h0]
        exact ha0
    · rw [if_neg hany] at hmem
      rcases List.mem_append.mp hmem with h | h
      · exact Or.inl h
      · right
        rw [List.mem_singleton.mp h]

theorem alertsStep_createAlerts (t : Int)
    (items : List (String × String × ℚ × List (String × ℚ))) :
    ∀ g, AlertsStep t g (createAlerts g t items) := by
  induction items with
  | nil =>
    intro g
    exact alertsStep_refl t g
  | cons it rest ih =>
    intro g
    unfold createAlerts
    rw [List.foldl_cons]
    exact alertsStep_trans (alertsStep_create t g it.1 it.2.1 it.2.2.1 it.2.2.2) (ih _)

theorem alertsStep_structuring (g : Graph) (s t : Int) (a : String) :
    AlertsStep t g (detect_structuring g s t a).2 := by
  unfold detect_structuring
  cases hf : g.findAddr a with
  | none => exact alertsStep_refl t g
  | some node =>
    dsimp only
    repeat' split
    all_goals first
      | exact alertsStep_createAlerts t _ g
      | exact alertsStep_refl t g

theorem alertsStep_peel (g : Graph) (t : Int) (a : String) :
    AlertsStep t g (detect_peel_chains g t a).2 := by
  unfold detect_peel_chains
  cases hf : g.findAddr a with
  | none => exact alertsStep_refl t g
  | some node =>
    dsimp only
    repeat' split
    all_goals first
      | exact alertsStep_createAlerts t _ g
      | exact alertsStep_refl t g

theorem alertsStep_mixer (g : Graph) (t : Int) (a : String) :
    AlertsStep t g (find_mixer_activity g t a).2 := by
  unfold find_mixer_activity
  cases hf : g.findAddr a with
  | none => exact alertsStep_refl t g
  | some node =>
    dsimp only
    repeat' split
    all_goals first
      | exact alertsStep_createAlerts t _ g
      | exact alertsStep_refl t g

theorem alertsStep_taint (g : Graph) (t : Int) (a : String) :
    AlertsStep t g (run_taint_analysis g t a).2 := by
  unfold run_taint_analysis
  cases hf : g.findAddr a with
  | none => exact alertsStep_refl t g
  | some node => exact alertsStep_createAlerts t _ g

theorem alertsStep_circ (g : Graph) (t : Int) (a : String) :
    AlertsStep t g (find_circular_txns g t a).2 := by
  unfold find_circular_txns
  cases hf : g.findAddr a with
  | none => exact alertsStep_refl t g
  | some node =>
    dsimp only
    repeat' split
    all_goals first
      | exact alertsStep_createAlerts t _ g
      | exact alertsStep_refl t g

theorem alertsStep_velocity (g : Graph) (s t : Int) (a : String) :
    AlertsStep t g (detect_velocity_alert g s t a).2 := by
  unfold detect_velocity_alert
  cases hf : g.findAddr a with
  | none => exact alertsStep_refl t g
  | some node =>
    dsimp only
    repeat' split
    all_goals first
      | exact alertsStep_createAlerts t _ g
      | exact alertsStep_refl t g

theorem alertsStep_dormant (g : Graph) (s t : Int) (a : String) :
    AlertsStep t g (detect_dormant_reactivation g s t a).2 := by
  unfold detect_dormant_reactivation
  cases hf : g.findAddr a with
  | none => exact alertsStep_refl t g
  | some node =>
    dsimp only
    repeat' split
    all_goals first
      | exact alertsStep_createAlerts t _ g
      | exact alertsStep_refl t g

theorem alertsStep_round (g : Graph) (s t : Int) (a : String) :
    AlertsStep t g (detect_round_amounts g s t a).2 := by
  unfold detect_round_amounts
  cases hf : g.findAddr a with
  | none => exact alertsStep_refl t g
  | some node =>
    dsimp only
    repeat' split
    all_goals first
      | exact alertsStep_createAlerts t _ g
      | exact alertsStep_refl t g

theorem alertsStep_timing (g : Graph) (s t : Int) (a : String) :
    AlertsStep t g (detect_timing_patterns g s t a).2 := by
  unfold detect_timing_patterns
  cases hf : g.findAddr a with
  | none => exact alertsStep_refl t g
  | some node =>
    dsimp only
    repeat' split
    all_goals first
      | exact alertsStep_createAlerts t _ g
      | exact alertsStep_refl t g

theorem alertsStep_wash (g : Graph) (s t : Int) (a : String) :
    AlertsStep t g (detect_wash_trading g s t a).2 := by
  unfold detect_wash_trading
  cases hf : g.findAddr a with
  | none => exact alertsStep_refl t g
  | some node =>
    dsimp only
    repeat' split
    all_goals first
      | exact alertsStep_createAlerts t _ g
      | exact alertsStep_refl t g

theorem alertsStep_pipeline (g : Graph) (s t : Int) (a : String) :
    AlertsStep t g (run_all_analytics g s t a).2 := by
  unfold run_all_analytics
  rcases h1 : detect_structuring g s t a with ⟨r1, g1⟩
  rcases h2 : detect_peel_chains g1 t a with ⟨r2, g2⟩
  rcases h3 : find_mixer_activity g2 t a with ⟨r3, g3⟩
  rcases h4 : run_taint_analysis g3 t a with ⟨r4, g4⟩
  rcases h5 : find_circular_txns g4 t a with ⟨r5, g5⟩
  rcases h6 : detect_velocity_alert g5 s t a with ⟨r6, g6⟩
  rcases h7 : detect_dormant_reactivation g6 s t a with ⟨r7, g7⟩
  rcases h8 : detect_round_amounts g7 s t a with ⟨r8, g8⟩
  rcases h9 : detect_timing_patterns g8 s t a with ⟨r9, g9⟩
  rcases h10 : detect_wash_trading g9 s t a with ⟨r10, g10⟩
  simp only [h1, h2, h3, h4, h5, h6, h7, h8, h9, h10]
  have a1 := h1 ▸ alertsStep_structuring g s t a
  have a2 := h2 ▸ alertsStep_peel g1 t a
  have a3 := h3 ▸ alertsStep_mixer g2 t a
  have a4 := h4 ▸ alertsStep_taint g3 t a
  have a5 := h5 ▸ alertsStep_circ g4 t a
  have a6 := h6 ▸ alertsStep_velocity g5 s t a
  have a7 := h7 ▸ alertsStep_dormant g6 s t a
  have a8 := h8 ▸ alertsStep_round g7 s t a
  have a9 := h9 ▸ alertsStep_timing g8 s t a
  have a10 := h10 ▸ alertsStep_wash g9 s t a
  exact alertsStep_trans a1 (alertsStep_trans a2 (alertsStep_trans a3 (alertsStep_trans a4
    (alertsStep_trans a5 (alertsStep_trans a6 (alertsStep_trans a7 (alertsStep_trans a8
      (alertsStep_trans a9 a10))))))))

/-- C1 (amended): re-running the pipeline on the unchanged snapshot with a
fresh alert clock `t2` does not alter or remove any already-created Alert
(every alert whose timestamp differs from `t2` survives unchanged) and only
appends alerts carrying timestamp `t2`; by `c1_counterexample` the appended
duplicates do change the Risk Scorer's subsequent output. -/
theorem c1_rerun_appends_only (g : Graph) (s t1 t2 : Int) (address : String) :
    (∀ al ∈ (run_all_analytics g s t1 address).2.alerts, al.id.ms ≠ t2 →
      al ∈ (run_all_analytics (run_all_analytics g s t1 address).2 s t2 address).2.alerts) ∧
    (∀ al ∈ (run_all_analytics (run_all_analytics g s t1 address).2 s t2 address).2.alerts,
      al ∈ (run_all_analytics g s t1 address).2.alerts ∨ al.id.ms = t2) :=
  alertsStep_pipeline (run_all_analytics g s t1 address).2 s t2 address

/-- Five small same-day deposits into `a`: exactly the Structuring detector
fires on every pipeline run. -/
def Grun : Graph :=
  { addrs := [{ address := "a" }]
    txns := [⟨"h1", "d", "a", 1/10, 0⟩, ⟨"h2", "d", "a", 1/10, 0⟩, ⟨"h3", "d", "a", 1/10, 0⟩,
             ⟨"h4", "d", "a", 1/10, 0⟩, ⟨"h5", "d", "a", 1/10, 0⟩]
    transfers := []
    alerts := [] }


/-- The `a` node of `Grun` after a run at alert-clock `t`. -/
def aGAt (t : Int) : AddressNode :=
  { address := "a", has_alert := true, last_alert_ts := some t }

/-- The STRUCTURING alert created on `Grun` at alert-clock `t`. -/
def structAlertAt (t : Int) : Alert :=
  ⟨⟨"STRUCTURING", "a", t⟩, "STRUCTURING", 20, [("window_days", 3)], t, "a"⟩

/-- `Grun` after the first pipeline run (alert clock 1). -/
def Grun1 : Graph :=
  { addrs := [aGAt 1], txns := Grun.txns, transfers := [], alerts := [structAlertAt 1] }

/-- `Grun` after the second pipeline run (alert clock 2). -/
def Grun2 : Graph :=
  { addrs := [aGAt 2], txns := Grun.txns, transfers := [], alerts := [structAlertAt 1, structAlertAt 2] }

/-- The pipeline output on `Grun` (both runs). -/
def GrunOut : AnalyticsOut := ⟨[("a", 20)], [], [], [], [], [], [], [], [], []⟩

theorem grunlike_structuring (g : Graph) (t : Int) (noda : AddressNode)
    (hf : g.findAddr "a" = some noda) (htx : g.txns = Grun.txns)
    (hany : g.alerts.any (fun al => al.id == (⟨"STRUCTURING", "a", t⟩ : AlertId)) = false) :
    detect_structuring g (3 * 24 * 3600) t "a" =
      ([("a", 20)],
        ({ g with alerts := g.alerts ++ [structAlertAt t] } : Graph).setAddr "a"
          (fun n => { n with last_alert_ts := some t, has_alert := true })) := by
  have hts : structuringTxns g (3 * 24 * 3600) "a" = Grun.txns := by
    norm_num [structuringTxns, htx, Grun]
  unfold detect_structuring
  rw [hf]
  dsimp only
  rw [hts]
  rw [show ((Grun.txns.length : ℚ) / 5 * 20 +
      if 1 < ((Grun.txns.map (fun t => t.value)).sum : ℚ) then (10 : ℚ) else 0) = 20 by
    norm_num [Grun]]
  rw [if_pos (by norm_num [Grun])]
  unfold createAlerts
  dsimp only [List.foldl]
  rw [create_alert_append g t "a" "STRUCTURING" 20 [("window_days", 3)] hany
    (by rw [hf]; rfl)]
  rfl

theorem grunlike_quiet (g : Graph) (t : Int) (noda : AddressNode)
    (hf : g.findAddr "a" = some noda) (hfs : noda.first_seen = none)
    (htx : g.txns = Grun.txns) (htr : g.transfers = []) (hbads : taintBads g = []) :
    detect_peel_chains g t "a" = ([], g) ∧ find_mixer_activity g t "a" = ([], g) ∧
    run_taint_analysis g t "a" = ([], g) ∧ find_circular_txns g t "a" = ([], g) ∧
    detect_velocity_alert g (3 * 24 * 3600) t "a" = ([], g) ∧
    detect_dormant_reactivation g (3 * 24 * 3600) t "a" = ([], g) ∧
    detect_round_amounts g (3 * 24 * 3600) t "a" = ([], g) ∧
    detect_timing_patterns g (3 * 24 * 3600) t "a" = ([], g) ∧
    detect_wash_trading g (3 * 24 * 3600) t "a" = ([], g) := by
  refine ⟨?_, ?_, ?_, ?_, ?_, ?_, ?_, ?_, ?_⟩
  · unfold detect_peel_chains
    rw [hf]
    dsimp only
    rw [if_pos (by simp [peelPairs, htr])]
  · unfold find_mixer_activity
    rw [hf]
    dsimp only
    rw [show fanin g "a" = 0 from by simp [fanin, htr],
      show fanout g "a" = 0 from by simp [fanout, htr]]
    norm_num
  · unfold run_taint_analysis
    rw [hf]
    dsimp only
    rw [show taintRows g "a" = [] from by unfold taintRows; rw [hbads]; rfl]
    rfl
  · unfold find_circular_txns
    rw [hf]
    dsimp only
    rw [if_pos (by simp [cyclesCount, countCyclePaths, htr])]
  · unfold detect_velocity_alert
    rw [hf]
    dsimp only
    rw [show velocityTxns g (3 * 24 * 3600) "a" = [] from by simp [velocityTxns, htx, Grun]]
    norm_num
  · unfold detect_dormant_reactivation
    rw [hf]
    dsimp only
    rw [hfs]
  · unfold detect_round_amounts
    rw [hf]
    dsimp only
    rw [show roundTxns g (3 * 24 * 3600) "a" = [] from by simp [roundTxns, htx, Grun]]
    norm_num
  · unfold detect_timing_patterns
    rw [hf]
    dsimp only
    rw [show timingStamps g (3 * 24 * 3600) "a" = [] from by simp [timingStamps, htx, Grun]]
    norm_num
  · unfold detect_wash_trading
    rw [hf]
    dsimp only
    rw [if_pos (by simp [washPairs, htr])]

theorem grun_pipeline1 : run_all_analytics Grun (3 * 24 * 3600) 1 "a" = (GrunOut, Grun1) := by
  have hstep : detect_structuring Grun (3 * 24 * 3600) 1 "a" = ([("a", 20)], Grun1) := by
    rw [grunlike_structuring Grun 1 { address := "a" } rfl rfl (by decide)]
    refine congrArg _ ?_
    unfold Graph.setAddr
    norm_num [Grun, Grun1, aGAt, structAlertAt]
  have hq := grunlike_quiet Grun1 1 (aGAt 1) rfl rfl rfl rfl (by decide)
  unfold run_all_analytics
  rw [hstep]
  dsimp only
  rw [hq.1]
  dsimp only
  rw [hq.2.1]
  dsimp only
  rw [hq.2.2.1]
  dsimp only
  rw [hq.2.2.2.1]
  dsimp only
  rw [hq.2.2.2.2.1]
  dsimp only
  rw [hq.2.2.2.2.2.1]
  dsimp only
  rw [hq.2.2.2.2.2.2.1]
  dsimp only
  rw [hq.2.2.2.2.2.2.2.1]
  dsimp only
  rw [hq.2.2.2.2.2.2.2.2]
  rfl

theorem grun_pipeline2 :
    run_all_analytics Grun1 (3 * 24 * 3600) 2 "a" = (GrunOut, Grun2) := by
  have hstep : detect_structuring Grun1 (3 * 24 * 3600) 2 "a" = ([("a", 20)], Grun2) := by
    rw [grunlike_structuring Grun1 2 (aGAt 1) rfl rfl (by decide)]
    refine congrArg _ ?_
    unfold Graph.setAddr
    norm_num [Grun, Grun1, Grun2, aGAt, structAlertAt]
  have hq := grunlike_quiet Grun2 2 (aGAt 2) rfl rfl rfl rfl (by decide)
  unfold run_all_analytics
  rw [hstep]
  dsimp only
  rw [hq.1]
  dsimp only
  rw [hq.2.1]
  dsimp only
  rw [hq.2.2.1]
  dsimp only
  rw [hq.2.2.2.1]
  dsimp only
  rw [hq.2.2.2.2.1]
  dsimp only
  rw [hq.2.2.2.2.2.1]
  dsimp only
  rw [hq.2.2.2.2.2.2.1]
  dsimp only
  rw [hq.2.2.2.2.2.2.2.1]
  dsimp only
  rw [hq.2.2.2.2.2.2.2.2]
  rfl

/-- Counterexample to C1 as stated: running the pipeline a second time on
the unchanged snapshot appends a second STRUCTURING alert for the same
evidence, and the Risk Scorer output changes (10 → 20). -/
theorem c1_counterexample :
    (get_address_risk_score
        (run_all_analytics ((run_all_analytics Grun (3 * 24 * 3600) 1 "a").2)
          (3 * 24 * 3600) 2 "a").2 "a").1 ≠
      (get_address_risk_score ((run_all_analytics Grun (3 * 24 * 3600) 1 "a").2) "a").1 := by
  rw [grun_pipeline1]
  show (get_address_risk_score (run_all_analytics Grun1 (3 * 24 * 3600) 2 "a").2 "a").1 ≠
    (get_address_risk_score Grun1 "a").1
  rw [grun_pipeline2]
  show (get_address_risk_score Grun2 "a").1 ≠ (get_address_risk_score Grun1 "a").1
  unfold get_address_risk_score
  rw [show Grun2.findAddr "a" = some (aGAt 2) from rfl,
    show Grun1.findAddr "a" = some (aGAt 1) from rfl]
  dsimp only
  rw [show alertCount Grun2 "a" = 2 from by decide,
    show alertCount Grun1 "a" = 1 from by decide]
  norm_num [aGAt, riskScoreOf, _normalize]

/-- Witness for the amended C1: the first run's STRUCTURING alert (clock 1)
is still present, unchanged, after the second run (clock 2). -/
theorem c1_rerun_appends_only_witness :
    structAlertAt 1 ∈
      (run_all_analytics ((run_all_analytics Grun (3 * 24 * 3600) 1 "a").2)
        (3 * 24 * 3600) 2 "a").2.alerts :=
  (c1_rerun_appends_only Grun (3 * 24 * 3600) 1 2 "a").1 (structAlertAt 1)
    (by rw [grun_pipeline1]; exact List.mem_cons_self _ _)
    (by norm_num [structAlertAt])
